import Mathlib

/-!
Verification of the VintageStory server-query client (`src/vs/server_ping.py`).

Bytes are modelled as `List Nat` (each element a byte value 0..255); Python
strings are modelled as lists of Unicode code points (`List Nat`), since a
Python `str` is a sequence of code points.  Python exceptions become an
explicit error type `PyErr`:
  * `ValueError(msg)`        → `PyErr.valueError msg`
  * `IndexError`             → `PyErr.indexError` (raised by `data[i]` out of range)
  * `UnicodeDecodeError`     → `PyErr.unicodeDecodeError` (raised by `bytes.decode`)
  * `asyncio.IncompleteReadError` → `PyErr.incompleteReadError` (raised by `readexactly`)
Fallible code returns `Except PyErr α`.
-/

deriving instance DecidableEq for Except

namespace VS

/-! ### UTF-8 decoding (model of Python `bytes.decode("utf-8")`, strict mode)

Strict UTF-8: continuation bytes are `0x80..0xBF`; overlong encodings,
surrogates (U+D800..U+DFFF) and code points above U+10FFFF are rejected,
exactly as CPython's strict `utf-8` codec does. -/

/-- Is `b` a UTF-8 continuation byte? -/
def utf8Cont (b : Nat) : Bool := 0x80 ≤ b && b < 0xC0

/-- Decode one UTF-8 scalar value from the front of the byte list, returning
the code point and the remaining bytes, or `none` on malformed input. -/
def utf8Step : List Nat → Option (Nat × List Nat)
  | [] => none
  | b :: rest =>
    if b < 0x80 then some (b, rest)
    else if b < 0xC2 then none
    else if b < 0xE0 then
      match rest with
      | b1 :: r =>
        if utf8Cont b1 then some ((b - 0xC0) * 0x40 + (b1 - 0x80), r) else none
      | [] => none
    else if b < 0xF0 then
      match rest with
      | b1 :: b2 :: r =>
        if utf8Cont b1 && utf8Cont b2 then
          let c := (b - 0xE0) * 0x1000 + (b1 - 0x80) * 0x40 + (b2 - 0x80)
          if c < 0x800 || (0xD800 ≤ c && c < 0xE000) then none else some (c, r)
        else none
      | _ => none
    else if b < 0xF5 then
      match rest with
      | b1 :: b2 :: b3 :: r =>
        if utf8Cont b1 && utf8Cont b2 && utf8Cont b3 then
          let c := (b - 0xF0) * 0x40000 + (b1 - 0x80) * 0x1000
                     + (b2 - 0x80) * 0x40 + (b3 - 0x80)
          if c < 0x10000 || 0x110000 ≤ c then none else some (c, r)
        else none
      | _ => none
    else none

/-- Fuel-indexed UTF-8 decoding loop; each step consumes at least one byte,
so fuel `= l.length` always suffices. -/
def utf8DecodeFuel : Nat → List Nat → Option (List Nat)
  | _, [] => some []
  | 0, _ :: _ => none
  | fuel + 1, b :: rest =>
    match utf8Step (b :: rest) with
    | none => none
    | some (c, r) => (utf8DecodeFuel fuel r).map (fun cs => c :: cs)

/-- Model of Python `bytes.decode("utf-8")`: the list of decoded code points,
or `none` when the bytes are not valid UTF-8. -/
def decodeUtf8 (l : List Nat) : Option (List Nat) := utf8DecodeFuel l.length l

/-! ### Python exceptions and the result record -/

/-- Python exceptions raised by the query client. -/
inductive PyErr where
  | valueError (msg : String)
  | indexError
  | unicodeDecodeError
  | incompleteReadError
deriving DecidableEq

/-- `ServerQueryAnswer` dataclass (`server_ping.py` lines 9-17); string fields
are lists of Unicode code points. -/
structure ServerQueryAnswer where
  name : List Nat
  motd : List Nat
  player_count : Nat
  max_players : Nat
  game_mode : List Nat
  password : Bool
  server_version : List Nat
deriving DecidableEq

/-! ### The field parsers

`parse_server_query_answer` (`server_ping.py` lines 38-136) is a straight-line
function whose body is seven labelled blocks, one per field.  Each block is
embedded as its own definition; the top level chains them exactly as the
Python control flow does.  `data[i]` with `i` out of range raises
`IndexError`; the guarded reads `offset < len(data) and data[offset] == tag`
are embedded as `data[offset]? = some tag`, which is equivalent. -/

/-- Field 1 block (lines 55-66): `data[0]` must be tag `0x0A` (else
`ValueError`, or `IndexError` on empty input), then a one-byte length at
index 1, a bounds check, and a UTF-8 decode of the content slice. -/
def parseName (data : List Nat) : Except PyErr (List Nat × Nat) :=
  match data[0]? with
  | none => .error .indexError
  | some b =>
    if b ≠ 0x0A then .error (.valueError "Expected field 1 (Name) tag 0x0A at offset 0")
    else
      match data[1]? with
      | none => .error .indexError
      | some len =>
        if data.length < 2 + len then
          .error (.valueError "Not enough data to read Name content")
        else
          match decodeUtf8 ((data.drop 2).take len) with
          | none => .error .unicodeDecodeError
          | some s => .ok (s, 2 + len)

/-- Field 2 block (lines 68-77): optional MOTD.  If the guarded peek does not
see tag `0x12` the cursor is left untouched and the default `""` is used. -/
def parseMotd (data : List Nat) (offset : Nat) : Except PyErr (List Nat × Nat) :=
  if data[offset]? = some 0x12 then
    match data[offset + 1]? with
    | none => .error .indexError
    | some len =>
      if data.length < offset + 2 + len then
        .error (.valueError "Not enough data to read MOTD content")
      else
        match decodeUtf8 ((data.drop (offset + 2)).take len) with
        | none => .error .unicodeDecodeError
        | some s => .ok (s, offset + 2 + len)
  else .ok ([], offset)

/-- Required single-byte scalar field (the PlayerCount block, lines 79-86, and
the MaxPlayers block, lines 88-94, instantiated with their tag and message):
guarded tag peek, then an unguarded one-byte value read. -/
def parseReqScalar (tag : Nat) (msg : String) (data : List Nat) (offset : Nat) :
    Except PyErr (Nat × Nat) :=
  if data[offset]? = some tag then
    match data[offset + 1]? with
    | none => .error .indexError
    | some v => .ok (v, offset + 2)
  else .error (.valueError msg)

/-- Required length-delimited string field (the GameMode block, lines 96-106,
and the ServerVersion block, lines 116-126, instantiated with their tag and
messages): guarded tag peek, unguarded one-byte length read, bounds check on
the content, UTF-8 decode. -/
def parseReqString (tag : Nat) (truncMsg tagMsg : String) (data : List Nat) (offset : Nat) :
    Except PyErr (List Nat × Nat) :=
  if data[offset]? = some tag then
    match data[offset + 1]? with
    | none => .error .indexError
    | some len =>
      if data.length < offset + 2 + len then .error (.valueError truncMsg)
      else
        match decodeUtf8 ((data.drop (offset + 2)).take len) with
        | none => .error .unicodeDecodeError
        | some s => .ok (s, offset + 2 + len)
  else .error (.valueError tagMsg)

/-- Field 6 block (lines 108-114): optional password flag, default `False`;
the value byte is read unguarded and compared against zero. -/
def parsePassword (data : List Nat) (offset : Nat) : Except PyErr (Bool × Nat) :=
  if data[offset]? = some 0x30 then
    match data[offset + 1]? with
    | none => .error .indexError
    | some v => .ok (v != 0, offset + 2)
  else .ok (false, offset)

/-- `parse_server_query_answer` (lines 38-136): the seven field blocks in
source order, propagating the first exception. -/
def parse_server_query_answer (data : List Nat) : Except PyErr ServerQueryAnswer :=
  match parseName data with
  | .error e => .error e
  | .ok (name, o1) =>
    match parseMotd data o1 with
    | .error e => .error e
    | .ok (motd, o2) =>
      match parseReqScalar 0x18 "Expected field 3 (PlayerCount) tag 0x18" data o2 with
      | .error e => .error e
      | .ok (player_count, o3) =>
        match parseReqScalar 0x20 "Expected field 4 (MaxPlayers) tag 0x20" data o3 with
        | .error e => .error e
        | .ok (max_players, o4) =>
          match parseReqString 0x2A "Not enough data to read GameMode content"
              "Expected field 5 (GameMode) tag 0x2A" data o4 with
          | .error e => .error e
          | .ok (game_mode, o5) =>
            match parsePassword data o5 with
            | .error e => .error e
            | .ok (password, o6) =>
              match parseReqString 0x3A "Not enough data to read ServerVersion content"
                  "Expected field 7 (ServerVersion) tag 0x3A" data o6 with
              | .error e => .error e
              | .ok (server_version, _) =>
                .ok { name := name, motd := motd, player_count := player_count,
                      max_players := max_players, game_mode := game_mode,
                      password := password, server_version := server_version }

/-! ### Frame codec and request builder -/

/-- `struct.pack(">I", n)`: the four big-endian bytes of `n` (for `n < 2^32`). -/
def pack_u32_be (n : Nat) : List Nat :=
  [n / 0x1000000 % 0x100, n / 0x10000 % 0x100, n / 0x100 % 0x100, n % 0x100]

/-- `struct.unpack(">I", header)` on a four-byte list. -/
def unpack_u32_be (l : List Nat) : Nat :=
  match l with
  | [a, b, c, d] => ((a * 0x100 + b) * 0x100 + c) * 0x100 + d
  | _ => 0

/-- `build_query_packet` (lines 141-154): payload `b"\x08\x0F"` preceded by a
4-byte big-endian length prefix. -/
def build_query_packet : List Nat :=
  pack_u32_be ([0x08, 0x0F] : List Nat).length ++ [0x08, 0x0F]

/-- The Frame Codec encoder: the framing step of `build_query_packet`
(line 153-154) generalised to an arbitrary payload — a 4-byte big-endian
length followed by the payload, unmodified. -/
def encode_frame (payload : List Nat) : List Nat :=
  pack_u32_be payload.length ++ payload

/-- `reader.readexactly(n)` over a byte stream modelled as a list: returns
exactly `n` bytes and the remaining stream, or `IncompleteReadError` when the
stream ends first. -/
def readexactly (stream : List Nat) (n : Nat) : Except PyErr (List Nat × List Nat) :=
  if stream.length < n then .error .incompleteReadError
  else .ok (stream.take n, stream.drop n)

/-- `read_packet` (lines 175-179): read a 4-byte big-endian length, then
exactly that many payload bytes; returns the payload and the rest of the
stream. -/
def read_packet (stream : List Nat) : Except PyErr (List Nat × List Nat) :=
  match readexactly stream 4 with
  | .error e => .error e
  | .ok (header, rest) =>
    match readexactly rest (unpack_u32_be header) with
    | .error e => .error e
    | .ok (payload, rest2) => .ok (payload, rest2)

/-! ### The decode stage of `query_server` -/

/-- `payload.find(b"\x0a")` (line 188): index of the first occurrence of the
byte, `none` standing for Python's `-1`. -/
def bytes_find (b : Nat) : List Nat → Option Nat
  | [] => none
  | x :: xs => if x = b then some 0 else (bytes_find b xs).map (· + 1)

/-- The decode stage of `query_server` (lines 186-195): locate the first
`0x0A` byte, fail with the preamble `ValueError` if absent, otherwise parse
from that byte onward. -/
def query_decode (payload : List Nat) : Except PyErr ServerQueryAnswer :=
  match bytes_find 0x0A payload with
  | none => .error (.valueError "Could not find start of QueryAnswer (0x0a tag)")
  | some idx => parse_server_query_answer (payload.drop idx)

/-! ### Input-record constructors used to state the claims -/

/-- A byte list: every element is a byte value. -/
def isBytes (l : List Nat) : Prop := ∀ b ∈ l, b < 256

instance (l : List Nat) : Decidable (isBytes l) := by
  unfold isBytes; infer_instance

/-- A well-formed field record with all seven fields present in order
(tags 0x0A, 0x12, 0x18, 0x20, 0x2A, 0x30, 0x3A, each in its tabulated
shape). -/
def mkRecord (ns ms : List Nat) (pc mp : Nat) (gs : List Nat) (pw : Nat)
    (vs : List Nat) : List Nat :=
  0x0A :: ns.length :: (ns ++ 0x12 :: ms.length :: (ms ++
    0x18 :: pc :: 0x20 :: mp :: 0x2A :: gs.length :: (gs ++
      0x30 :: pw :: 0x3A :: vs.length :: vs)))

/-- A field record with the optional motd (0x12) and password (0x30) fields
absent and the five required fields present in order. -/
def mkRecordNoOpt (ns : List Nat) (pc mp : Nat) (gs vs : List Nat) : List Nat :=
  0x0A :: ns.length :: (ns ++
    0x18 :: pc :: 0x20 :: mp :: 0x2A :: gs.length :: (gs ++
      0x3A :: vs.length :: vs))

/-! ### Symbolic evaluation lemmas for the field parsers

Each lemma evaluates one field block on a byte list split as
`pre ++ (field bytes) ++ rest`, at cursor position `pre.length`. -/

theorem parseName_ok (data ns rest sn : List Nat)
    (hdata : data = 0x0A :: ns.length :: (ns ++ rest))
    (hdec : decodeUtf8 ns = some sn) :
    parseName data = .ok (sn, 2 + ns.length) := by
  subst hdata
  simp [parseName, List.take_left, hdec]
  omega

theorem parseName_trunc (data : List Nat) (n : Nat) (rest : List Nat)
    (hdata : data = 0x0A :: n :: rest) (h : rest.length < n) :
    parseName data = .error (.valueError "Not enough data to read Name content") := by
  subst hdata
  simp [parseName]
  omega

theorem parseMotd_present (data pre ms rest sm : List Nat) (off : Nat)
    (hdata : data = pre ++ 0x12 :: ms.length :: (ms ++ rest))
    (hoff : off = pre.length) (hdec : decodeUtf8 ms = some sm) :
    parseMotd data off = .ok (sm, off + 2 + ms.length) := by
  subst hdata; subst hoff
  have h0 : (pre ++ 0x12 :: ms.length :: (ms ++ rest))[pre.length]? = some 0x12 := by
    rw [List.getElem?_append_right (Nat.le_refl _)]
    simp
  have h1 : (pre ++ 0x12 :: ms.length :: (ms ++ rest))[pre.length + 1]? = some ms.length := by
    rw [List.getElem?_append_right (Nat.le_add_right _ _)]
    simp
  have hdrop : (pre ++ 0x12 :: ms.length :: (ms ++ rest)).drop (pre.length + 2) =
      ms ++ rest := by
    rw [List.drop_append 2]
    rfl
  simp [parseMotd, h0, h1, hdrop, List.take_left, hdec]
  omega

theorem parseMotd_absent (data pre : List Nat) (t : Nat) (rest : List Nat) (off : Nat)
    (hdata : data = pre ++ t :: rest) (hoff : off = pre.length) (h : t ≠ 0x12) :
    parseMotd data off = .ok ([], off) := by
  subst hdata; subst hoff
  have h0 : (pre ++ t :: rest)[pre.length]? = some t := by
    rw [List.getElem?_append_right (Nat.le_refl _)]
    simp
  simp [parseMotd, h0, h]

theorem parseMotd_trunc (data pre : List Nat) (n : Nat) (rest : List Nat) (off : Nat)
    (hdata : data = pre ++ 0x12 :: n :: rest) (hoff : off = pre.length)
    (h : rest.length < n) :
    parseMotd data off = .error (.valueError "Not enough data to read MOTD content") := by
  subst hdata; subst hoff
  have h0 : (pre ++ 0x12 :: n :: rest)[pre.length]? = some 0x12 := by
    rw [List.getElem?_append_right (Nat.le_refl _)]
    simp
  have h1 : (pre ++ 0x12 :: n :: rest)[pre.length + 1]? = some n := by
    rw [List.getElem?_append_right (Nat.le_add_right _ _)]
    simp
  simp [parseMotd, h0, h1]
  omega

theorem parseReqScalar_ok (tag : Nat) (msg : String) (data pre : List Nat)
    (v : Nat) (rest : List Nat) (off : Nat)
    (hdata : data = pre ++ tag :: v :: rest) (hoff : off = pre.length) :
    parseReqScalar tag msg data off = .ok (v, off + 2) := by
  subst hdata; subst hoff
  have h0 : (pre ++ tag :: v :: rest)[pre.length]? = some tag := by
    rw [List.getElem?_append_right (Nat.le_refl _)]
    simp
  have h1 : (pre ++ tag :: v :: rest)[pre.length + 1]? = some v := by
    rw [List.getElem?_append_right (Nat.le_add_right _ _)]
    simp
  simp [parseReqScalar, h0, h1]

theorem parseReqScalar_miss (tag : Nat) (msg : String) (data pre : List Nat)
    (t : Nat) (rest : List Nat) (off : Nat)
    (hdata : data = pre ++ t :: rest) (hoff : off = pre.length) (h : t ≠ tag) :
    parseReqScalar tag msg data off = .error (.valueError msg) := by
  subst hdata; subst hoff
  have h0 : (pre ++ t :: rest)[pre.length]? = some t := by
    rw [List.getElem?_append_right (Nat.le_refl _)]
    simp
  simp [parseReqScalar, h0, h]

theorem parseReqString_ok (tag : Nat) (m1 m2 : String) (data pre s rest sn : List Nat)
    (off : Nat) (hdata : data = pre ++ tag :: s.length :: (s ++ rest))
    (hoff : off = pre.length) (hdec : decodeUtf8 s = some sn) :
    parseReqString tag m1 m2 data off = .ok (sn, off + 2 + s.length) := by
  subst hdata; subst hoff
  have h0 : (pre ++ tag :: s.length :: (s ++ rest))[pre.length]? = some tag := by
    rw [List.getElem?_append_right (Nat.le_refl _)]
    simp
  have h1 : (pre ++ tag :: s.length :: (s ++ rest))[pre.length + 1]? = some s.length := by
    rw [List.getElem?_append_right (Nat.le_add_right _ _)]
    simp
  have hdrop : (pre ++ tag :: s.length :: (s ++ rest)).drop (pre.length + 2) =
      s ++ rest := by
    rw [List.drop_append 2]
    rfl
  simp [parseReqString, h0, h1, hdrop, List.take_left, hdec]
  omega

theorem parseReqString_trunc (tag : Nat) (m1 m2 : String) (data pre : List Nat)
    (n : Nat) (rest : List Nat) (off : Nat)
    (hdata : data = pre ++ tag :: n :: rest) (hoff : off = pre.length)
    (h : rest.length < n) :
    parseReqString tag m1 m2 data off = .error (.valueError m1) := by
  subst hdata; subst hoff
  have h0 : (pre ++ tag :: n :: rest)[pre.length]? = some tag := by
    rw [List.getElem?_append_right (Nat.le_refl _)]
    simp
  have h1 : (pre ++ tag :: n :: rest)[pre.length + 1]? = some n := by
    rw [List.getElem?_append_right (Nat.le_add_right _ _)]
    simp
  simp [parseReqString, h0, h1]
  omega

theorem parseReqString_miss (tag : Nat) (m1 m2 : String) (data pre : List Nat)
    (t : Nat) (rest : List Nat) (off : Nat)
    (hdata : data = pre ++ t :: rest) (hoff : off = pre.length) (h : t ≠ tag) :
    parseReqString tag m1 m2 data off = .error (.valueError m2) := by
  subst hdata; subst hoff
  have h0 : (pre ++ t :: rest)[pre.length]? = some t := by
    rw [List.getElem?_append_right (Nat.le_refl _)]
    simp
  simp [parseReqString, h0, h]

theorem parsePassword_present (data pre : List Nat) (v : Nat) (rest : List Nat)
    (off : Nat) (hdata : data = pre ++ 0x30 :: v :: rest) (hoff : off = pre.length) :
    parsePassword data off = .ok (v != 0, off + 2) := by
  subst hdata; subst hoff
  have h0 : (pre ++ 0x30 :: v :: rest)[pre.length]? = some 0x30 := by
    rw [List.getElem?_append_right (Nat.le_refl _)]
    simp
  have h1 : (pre ++ 0x30 :: v :: rest)[pre.length + 1]? = some v := by
    rw [List.getElem?_append_right (Nat.le_add_right _ _)]
    simp
  simp [parsePassword, h0, h1]

theorem parsePassword_absent (data pre : List Nat) (t : Nat) (rest : List Nat)
    (off : Nat) (hdata : data = pre ++ t :: rest) (hoff : off = pre.length)
    (h : t ≠ 0x30) :
    parsePassword data off = .ok (false, off) := by
  subst hdata; subst hoff
  have h0 : (pre ++ t :: rest)[pre.length]? = some t := by
    rw [List.getElem?_append_right (Nat.le_refl _)]
    simp
  simp [parsePassword, h0, h]

/-! ### Properties of `bytes_find` (Python `bytes.find`) -/

theorem bytes_find_eq_none (b : Nat) (l : List Nat) :
    bytes_find b l = none ↔ b ∉ l := by
  induction l with
  | nil => simp [bytes_find]
  | cons x xs ih =>
    by_cases hx : x = b
    · simp [bytes_find, hx]
    · simp [bytes_find, hx, Option.map_eq_none', ih, Ne.symm hx]

theorem bytes_find_spec (b : Nat) (l : List Nat) (i : Nat)
    (h : bytes_find b l = some i) :
    l[i]? = some b ∧ ∀ j, j < i → l[j]? ≠ some b := by
  induction l generalizing i with
  | nil => simp [bytes_find] at h
  | cons x xs ih =>
    simp only [bytes_find] at h
    by_cases hx : x = b
    · rw [if_pos hx] at h
      injection h with h
      subst h
      exact ⟨by simp [hx], fun j hj => by omega⟩
    · rw [if_neg hx] at h
      cases hk : bytes_find b xs with
      | none => rw [hk] at h; exact absurd h (by simp)
      | some k =>
        rw [hk] at h
        simp only [Option.map_some'] at h
        injection h with h
        subst h
        obtain ⟨h1, h2⟩ := ih k hk
        refine ⟨by simpa using h1, fun j hj => ?_⟩
        cases j with
        | zero => simp [hx]
        | succ j' => simpa using h2 j' (by omega)

/-! ### The possible error values of each field block -/

theorem parseName_error_shape (data : List Nat) (e : PyErr)
    (h : parseName data = .error e) (h0 : data[0]? = some 0x0A) :
    e = .indexError ∨ e = .unicodeDecodeError ∨
      e = .valueError "Not enough data to read Name content" := by
  unfold parseName at h
  rw [h0] at h
  simp only [ne_eq, not_true_eq_false, if_false, reduceCtorEq] at h
  split at h
  · injection h with h; subst h; exact Or.inl rfl
  · split at h
    · injection h with h; subst h; exact Or.inr (Or.inr rfl)
    · split at h
      · injection h with h; subst h; exact Or.inr (Or.inl rfl)
      · exact absurd h (by simp)

theorem parseMotd_error_shape (data : List Nat) (off : Nat) (e : PyErr)
    (h : parseMotd data off = .error e) :
    e = .indexError ∨ e = .unicodeDecodeError ∨
      e = .valueError "Not enough data to read MOTD content" := by
  unfold parseMotd at h
  split at h
  · split at h
    · injection h with h; subst h; exact Or.inl rfl
    · split at h
      · injection h with h; subst h; exact Or.inr (Or.inr rfl)
      · split at h
        · injection h with h; subst h; exact Or.inr (Or.inl rfl)
        · exact absurd h (by simp)
  · exact absurd h (by simp)

theorem parseReqScalar_error_shape (tag : Nat) (msg : String) (data : List Nat)
    (off : Nat) (e : PyErr) (h : parseReqScalar tag msg data off = .error e) :
    e = .indexError ∨ e = .valueError msg := by
  unfold parseReqScalar at h
  split at h
  · split at h
    · injection h with h; subst h; exact Or.inl rfl
    · exact absurd h (by simp)
  · injection h with h; subst h; exact Or.inr rfl

theorem parseReqString_error_shape (tag : Nat) (m1 m2 : String) (data : List Nat)
    (off : Nat) (e : PyErr) (h : parseReqString tag m1 m2 data off = .error e) :
    e = .indexError ∨ e = .unicodeDecodeError ∨
      e = .valueError m1 ∨ e = .valueError m2 := by
  unfold parseReqString at h
  split at h
  · split at h
    · injection h with h; subst h; exact Or.inl rfl
    · split at h
      · injection h with h; subst h; exact Or.inr (Or.inr (Or.inl rfl))
      · split at h
        · injection h with h; subst h; exact Or.inr (Or.inl rfl)
        · exact absurd h (by simp)
  · injection h with h; subst h; exact Or.inr (Or.inr (Or.inr rfl))

theorem parsePassword_error_shape (data : List Nat) (off : Nat) (e : PyErr)
    (h : parsePassword data off = .error e) : e = .indexError := by
  unfold parsePassword at h
  split at h
  · split at h
    · injection h with h; subst h; rfl
    · exact absurd h (by simp)
  · exact absurd h (by simp)

/-- When the input starts with the `0x0A` tag, `parse_server_query_answer`
can never fail with the field-1 tag-mismatch error: every later failure
carries a different error value. -/
theorem parse_no_field1_error_of_head_0A (data : List Nat)
    (h0 : data[0]? = some 0x0A) :
    parse_server_query_answer data ≠
      .error (.valueError "Expected field 1 (Name) tag 0x0A at offset 0") := by
  intro hcontra
  unfold parse_server_query_answer at hcontra
  split at hcontra
  · rename_i e heq
    injection hcontra with hc; subst hc
    rcases parseName_error_shape data _ heq h0 with h | h | h <;> exact absurd h (by decide)
  · rename_i name o1 heq1
    split at hcontra
    · rename_i e heq
      injection hcontra with hc; subst hc
      rcases parseMotd_error_shape data o1 _ heq with h | h | h <;> exact absurd h (by decide)
    · rename_i motd o2 heq2
      split at hcontra
      · rename_i e heq
        injection hcontra with hc; subst hc
        rcases parseReqScalar_error_shape _ _ data o2 _ heq with h | h <;>
          exact absurd h (by decide)
      · rename_i pc o3 heq3
        split at hcontra
        · rename_i e heq
          injection hcontra with hc; subst hc
          rcases parseReqScalar_error_shape _ _ data o3 _ heq with h | h <;>
            exact absurd h (by decide)
        · rename_i mp o4 heq4
          split at hcontra
          · rename_i e heq
            injection hcontra with hc; subst hc
            rcases parseReqString_error_shape _ _ _ data o4 _ heq with h | h | h | h <;>
              exact absurd h (by decide)
          · rename_i gm o5 heq5
            split at hcontra
            · rename_i e heq
              injection hcontra with hc; subst hc
              exact absurd (parsePassword_error_shape data o5 _ heq) (by decide)
            · rename_i pwv o6 heq6
              split at hcontra
              · rename_i e heq
                injection hcontra with hc; subst hc
                rcases parseReqString_error_shape _ _ _ data o6 _ heq with h | h | h | h <;>
                  exact absurd h (by decide)
              · exact absurd hcontra (by simp)

/-! ### End-of-buffer behaviour of every decoding operation

For each field block, the exact outcome of every read that meets the end of
the buffer, universally over the buffer and the cursor position: string
content short of its declared length is the Truncated `ValueError`, an
unguarded one-byte read past the end is `IndexError`, and a guarded tag peek
at the end of the buffer never reads past it (required fields fail with the
tag `ValueError`, optional fields skip with the default). -/

theorem get_at (data pre : List Nat) (t : Nat) (rest : List Nat) (off : Nat)
    (hdata : data = pre ++ t :: rest) (hoff : off = pre.length) :
    data[off]? = some t := by
  subst hdata; subst hoff
  rw [List.getElem?_append_right (Nat.le_refl _)]
  simp

theorem parseName_content_oob (data : List Nat) (n : Nat)
    (h0 : data[0]? = some 0x0A) (h1 : data[1]? = some n)
    (h : data.length < 2 + n) :
    parseName data = .error (.valueError "Not enough data to read Name content") := by
  simp [parseName, h0, h1, h]

theorem parseMotd_content_oob (data : List Nat) (off n : Nat)
    (h0 : data[off]? = some 0x12) (h1 : data[off + 1]? = some n)
    (h : data.length < off + 2 + n) :
    parseMotd data off = .error (.valueError "Not enough data to read MOTD content") := by
  simp [parseMotd, h0, h1, h]

theorem parseReqString_content_oob (tag : Nat) (m1 m2 : String) (data : List Nat)
    (off n : Nat) (h0 : data[off]? = some tag) (h1 : data[off + 1]? = some n)
    (h : data.length < off + 2 + n) :
    parseReqString tag m1 m2 data off = .error (.valueError m1) := by
  simp [parseReqString, h0, h1, h]

theorem parseName_idx_oob (data : List Nat)
    (h0 : data[0]? = some 0x0A) (h1 : data[1]? = none) :
    parseName data = .error .indexError := by
  simp [parseName, h0, h1]

theorem parseMotd_idx_oob (data : List Nat) (off : Nat)
    (h0 : data[off]? = some 0x12) (h1 : data[off + 1]? = none) :
    parseMotd data off = .error .indexError := by
  simp [parseMotd, h0, h1]

theorem parseReqScalar_idx_oob (tag : Nat) (msg : String) (data : List Nat)
    (off : Nat) (h0 : data[off]? = some tag) (h1 : data[off + 1]? = none) :
    parseReqScalar tag msg data off = .error .indexError := by
  simp [parseReqScalar, h0, h1]

theorem parseReqString_idx_oob (tag : Nat) (m1 m2 : String) (data : List Nat)
    (off : Nat) (h0 : data[off]? = some tag) (h1 : data[off + 1]? = none) :
    parseReqString tag m1 m2 data off = .error .indexError := by
  simp [parseReqString, h0, h1]

theorem parsePassword_idx_oob (data : List Nat) (off : Nat)
    (h0 : data[off]? = some 0x30) (h1 : data[off + 1]? = none) :
    parsePassword data off = .error .indexError := by
  simp [parsePassword, h0, h1]

theorem parseReqScalar_eob (tag : Nat) (msg : String) (data : List Nat)
    (off : Nat) (h : data.length ≤ off) :
    parseReqScalar tag msg data off = .error (.valueError msg) := by
  simp [parseReqScalar, List.getElem?_eq_none h]

theorem parseReqString_eob (tag : Nat) (m1 m2 : String) (data : List Nat)
    (off : Nat) (h : data.length ≤ off) :
    parseReqString tag m1 m2 data off = .error (.valueError m2) := by
  simp [parseReqString, List.getElem?_eq_none h]

theorem parseMotd_eob (data : List Nat) (off : Nat) (h : data.length ≤ off) :
    parseMotd data off = .ok ([], off) := by
  simp [parseMotd, List.getElem?_eq_none h]

theorem parsePassword_eob (data : List Nat) (off : Nat) (h : data.length ≤ off) :
    parsePassword data off = .ok (false, off) := by
  simp [parsePassword, List.getElem?_eq_none h]

/-! ### Appending trailing bytes preserves successful parses -/

theorem lt_length_of_get?_some {l : List Nat} {i v : Nat} (h : l[i]? = some v) :
    i < l.length := by
  rcases List.getElem?_eq_some.mp h with ⟨hlt, _⟩
  exact hlt

theorem getElem?_append_of_lt (data extra : List Nat) (i : Nat)
    (h : i < data.length) : (data ++ extra)[i]? = data[i]? := by
  rw [List.getElem?_append]
  rw [if_pos h]

theorem slice_append (data extra : List Nat) (k n : Nat) (h : k + n ≤ data.length) :
    ((data ++ extra).drop k).take n = (data.drop k).take n := by
  rw [List.drop_append_of_le_length (by omega)]
  rw [List.take_append_of_le_length (by simp only [List.length_drop]; omega)]

theorem parseName_append (data extra v : List Nat) (o : Nat)
    (h : parseName data = .ok (v, o)) :
    parseName (data ++ extra) = .ok (v, o) := by
  unfold parseName at h ⊢
  split at h
  · simp at h
  · rename_i b heq0
    split at h
    · simp at h
    · rename_i hb
      split at h
      · simp at h
      · rename_i len heq1
        split at h
        · simp at h
        · rename_i hlen
          split at h
          · simp at h
          · rename_i s heqd
            have g0 : (data ++ extra)[0]? = some b := by
              rw [getElem?_append_of_lt data extra 0 (lt_length_of_get?_some heq0)]
              exact heq0
            have g1 : (data ++ extra)[1]? = some len := by
              rw [getElem?_append_of_lt data extra 1 (lt_length_of_get?_some heq1)]
              exact heq1
            have gs : decodeUtf8 (((data ++ extra).drop 2).take len) = some s := by
              rw [slice_append data extra 2 len (by omega)]
              exact heqd
            rw [← h]
            simp [g0, g1, gs, hb] <;> omega

theorem parseMotd_append (data extra : List Nat) (off : Nat) (v : List Nat)
    (o : Nat) (h : parseMotd data off = .ok (v, o)) (hlt : o < data.length) :
    parseMotd (data ++ extra) off = .ok (v, o) := by
  unfold parseMotd at h ⊢
  split at h
  · rename_i hc
    split at h
    · simp at h
    · rename_i len heq1
      split at h
      · simp at h
      · rename_i hlen
        split at h
        · simp at h
        · rename_i s heqd
          have g0 : (data ++ extra)[off]? = some 0x12 := by
            rw [getElem?_append_of_lt data extra off (lt_length_of_get?_some hc)]
            exact hc
          have g1 : (data ++ extra)[off + 1]? = some len := by
            rw [getElem?_append_of_lt data extra (off + 1) (lt_length_of_get?_some heq1)]
            exact heq1
          have gs : decodeUtf8 (((data ++ extra).drop (off + 2)).take len) = some s := by
            rw [slice_append data extra (off + 2) len (by omega)]
            exact heqd
          rw [← h]
          simp [g0, g1, gs] <;> omega
  · rename_i hc
    simp only [Except.ok.injEq, Prod.mk.injEq] at h
    obtain ⟨hv, ho⟩ := h
    subst hv; subst ho
    have g0 : (data ++ extra)[off]? = data[off]? :=
      getElem?_append_of_lt data extra off (by omega)
    simp [g0, hc]

theorem parseReqScalar_ok_bound (tag : Nat) (msg : String) (data : List Nat)
    (off v o : Nat) (h : parseReqScalar tag msg data off = .ok (v, o)) :
    off < data.length := by
  unfold parseReqScalar at h
  split at h
  · rename_i hc
    exact lt_length_of_get?_some hc
  · simp at h

theorem parseReqScalar_append (tag : Nat) (msg : String) (data extra : List Nat)
    (off v o : Nat) (h : parseReqScalar tag msg data off = .ok (v, o)) :
    parseReqScalar tag msg (data ++ extra) off = .ok (v, o) := by
  unfold parseReqScalar at h ⊢
  split at h
  · rename_i hc
    split at h
    · simp at h
    · rename_i w heq1
      have g0 : (data ++ extra)[off]? = some tag := by
        rw [getElem?_append_of_lt data extra off (lt_length_of_get?_some hc)]
        exact hc
      have g1 : (data ++ extra)[off + 1]? = some w := by
        rw [getElem?_append_of_lt data extra (off + 1) (lt_length_of_get?_some heq1)]
        exact heq1
      rw [← h]
      simp [g0, g1]
  · simp at h

theorem parseReqString_ok_bound (tag : Nat) (m1 m2 : String) (data : List Nat)
    (off : Nat) (v : List Nat) (o : Nat)
    (h : parseReqString tag m1 m2 data off = .ok (v, o)) :
    off < data.length := by
  unfold parseReqString at h
  split at h
  · rename_i hc
    exact lt_length_of_get?_some hc
  · simp at h

theorem parseReqString_append (tag : Nat) (m1 m2 : String) (data extra : List Nat)
    (off : Nat) (v : List Nat) (o : Nat)
    (h : parseReqString tag m1 m2 data off = .ok (v, o)) :
    parseReqString tag m1 m2 (data ++ extra) off = .ok (v, o) := by
  unfold parseReqString at h ⊢
  split at h
  · rename_i hc
    split at h
    · simp at h
    · rename_i len heq1
      split at h
      · simp at h
      · rename_i hlen
        split at h
        · simp at h
        · rename_i s heqd
          have g0 : (data ++ extra)[off]? = some tag := by
            rw [getElem?_append_of_lt data extra off (lt_length_of_get?_some hc)]
            exact hc
          have g1 : (data ++ extra)[off + 1]? = some len := by
            rw [getElem?_append_of_lt data extra (off + 1) (lt_length_of_get?_some heq1)]
            exact heq1
          have gs : decodeUtf8 (((data ++ extra).drop (off + 2)).take len) = some s := by
            rw [slice_append data extra (off + 2) len (by omega)]
            exact heqd
          rw [← h]
          simp [g0, g1, gs] <;> omega
  · simp at h

theorem parsePassword_append (data extra : List Nat) (off : Nat) (v : Bool)
    (o : Nat) (h : parsePassword data off = .ok (v, o)) (hlt : o < data.length) :
    parsePassword (data ++ extra) off = .ok (v, o) := by
  unfold parsePassword at h ⊢
  split at h
  · rename_i hc
    split at h
    · simp at h
    · rename_i w heq1
      have g0 : (data ++ extra)[off]? = some 0x30 := by
        rw [getElem?_append_of_lt data extra off (lt_length_of_get?_some hc)]
        exact hc
      have g1 : (data ++ extra)[off + 1]? = some w := by
        rw [getElem?_append_of_lt data extra (off + 1) (lt_length_of_get?_some heq1)]
        exact heq1
      rw [← h]
      simp [g0, g1]
  · rename_i hc
    simp only [Except.ok.injEq, Prod.mk.injEq] at h
    obtain ⟨hv, ho⟩ := h
    subst hv; subst ho
    have g0 : (data ++ extra)[off]? = data[off]? :=
      getElem?_append_of_lt data extra off (by omega)
    simp [g0, hc]

/-! ### Arithmetic of the 4-byte big-endian codec -/

/-- Packing then unpacking a 32-bit value is the identity. -/
theorem unpack_pack_u32 (n : Nat) (h : n < 2 ^ 32) :
    unpack_u32_be (pack_u32_be n) = n := by
  simp only [pack_u32_be, unpack_u32_be]
  omega

end VS

/-- C1: a well-formed field record with all seven fields present in order
(tags 0x0A, 0x12, 0x18, 0x20, 0x2A, 0x30, 0x3A, each in its tabulated shape)
parses to a `ServerQueryAnswer` whose string fields are the UTF-8 decodings of
the corresponding content bytes, whose counts are the corresponding scalar
bytes, and whose password flag is true iff the password byte is nonzero. -/
theorem C1_all_fields_roundtrip (ns ms : List Nat) (pc mp : Nat) (gs : List Nat)
    (pw : Nat) (vs : List Nat) (sn sm sg sv : List Nat)
    (hb1 : VS.isBytes ns) (hb2 : VS.isBytes ms) (hb3 : VS.isBytes gs)
    (hb4 : VS.isBytes vs)
    (hl1 : ns.length < 256) (hl2 : ms.length < 256) (hl3 : gs.length < 256)
    (hl4 : vs.length < 256)
    (hpc : pc < 256) (hmp : mp < 256) (hpw : pw < 256)
    (hdn : VS.decodeUtf8 ns = some sn) (hdm : VS.decodeUtf8 ms = some sm)
    (hdg : VS.decodeUtf8 gs = some sg) (hdv : VS.decodeUtf8 vs = some sv) :
    VS.parse_server_query_answer (VS.mkRecord ns ms pc mp gs pw vs) =
      .ok { name := sn, motd := sm, player_count := pc, max_players := mp,
            game_mode := sg, password := pw != 0, server_version := sv } := by
  have e1 : VS.parseName (VS.mkRecord ns ms pc mp gs pw vs) = .ok (sn, 2 + ns.length) :=
    VS.parseName_ok _ ns
      (0x12 :: ms.length :: (ms ++ 0x18 :: pc :: 0x20 :: mp :: 0x2A :: gs.length ::
        (gs ++ 0x30 :: pw :: 0x3A :: vs.length :: vs))) sn
      (by simp [VS.mkRecord]) hdn
  have e2 : VS.parseMotd (VS.mkRecord ns ms pc mp gs pw vs) (2 + ns.length) =
      .ok (sm, 2 + ns.length + 2 + ms.length) :=
    VS.parseMotd_present _ (0x0A :: ns.length :: ns) ms
      (0x18 :: pc :: 0x20 :: mp :: 0x2A :: gs.length ::
        (gs ++ 0x30 :: pw :: 0x3A :: vs.length :: vs)) sm _
      (by simp [VS.mkRecord]) (by simp only [List.length_cons]; omega) hdm
  have e3 : VS.parseReqScalar 0x18 "Expected field 3 (PlayerCount) tag 0x18"
      (VS.mkRecord ns ms pc mp gs pw vs) (2 + ns.length + 2 + ms.length) =
      .ok (pc, 2 + ns.length + 2 + ms.length + 2) :=
    VS.parseReqScalar_ok _ _ _ (0x0A :: ns.length :: (ns ++ 0x12 :: ms.length :: ms)) pc
      (0x20 :: mp :: 0x2A :: gs.length :: (gs ++ 0x30 :: pw :: 0x3A :: vs.length :: vs)) _
      (by simp [VS.mkRecord])
      (by simp only [List.length_cons, List.length_append]; omega)
  have e4 : VS.parseReqScalar 0x20 "Expected field 4 (MaxPlayers) tag 0x20"
      (VS.mkRecord ns ms pc mp gs pw vs) (2 + ns.length + 2 + ms.length + 2) =
      .ok (mp, 2 + ns.length + 2 + ms.length + 2 + 2) :=
    VS.parseReqScalar_ok _ _ _
      (0x0A :: ns.length :: (ns ++ 0x12 :: ms.length :: (ms ++ [0x18, pc]))) mp
      (0x2A :: gs.length :: (gs ++ 0x30 :: pw :: 0x3A :: vs.length :: vs)) _
      (by simp [VS.mkRecord])
      (by simp only [List.length_cons, List.length_append, List.length_nil]; omega)
  have e5 : VS.parseReqString 0x2A "Not enough data to read GameMode content"
      "Expected field 5 (GameMode) tag 0x2A" (VS.mkRecord ns ms pc mp gs pw vs)
      (2 + ns.length + 2 + ms.length + 2 + 2) =
      .ok (sg, 2 + ns.length + 2 + ms.length + 2 + 2 + 2 + gs.length) :=
    VS.parseReqString_ok _ _ _ _
      (0x0A :: ns.length :: (ns ++ 0x12 :: ms.length :: (ms ++ [0x18, pc, 0x20, mp])))
      gs (0x30 :: pw :: 0x3A :: vs.length :: vs) sg _
      (by simp [VS.mkRecord])
      (by simp only [List.length_cons, List.length_append, List.length_nil]; omega) hdg
  have e6 : VS.parsePassword (VS.mkRecord ns ms pc mp gs pw vs)
      (2 + ns.length + 2 + ms.length + 2 + 2 + 2 + gs.length) =
      .ok (pw != 0, 2 + ns.length + 2 + ms.length + 2 + 2 + 2 + gs.length + 2) :=
    VS.parsePassword_present _
      (0x0A :: ns.length :: (ns ++ 0x12 :: ms.length ::
        (ms ++ 0x18 :: pc :: 0x20 :: mp :: 0x2A :: gs.length :: gs))) pw
      (0x3A :: vs.length :: vs) _
      (by simp [VS.mkRecord])
      (by simp only [List.length_cons, List.length_append]; omega)
  have e7 : VS.parseReqString 0x3A "Not enough data to read ServerVersion content"
      "Expected field 7 (ServerVersion) tag 0x3A" (VS.mkRecord ns ms pc mp gs pw vs)
      (2 + ns.length + 2 + ms.length + 2 + 2 + 2 + gs.length + 2) =
      .ok (sv, 2 + ns.length + 2 + ms.length + 2 + 2 + 2 + gs.length + 2 + 2 + vs.length) :=
    VS.parseReqString_ok _ _ _ _
      (0x0A :: ns.length :: (ns ++ 0x12 :: ms.length ::
        (ms ++ 0x18 :: pc :: 0x20 :: mp :: 0x2A :: gs.length :: (gs ++ [0x30, pw]))))
      vs [] sv _
      (by simp [VS.mkRecord])
      (by simp only [List.length_cons, List.length_append, List.length_nil]; omega) hdv
  simp only [VS.parse_server_query_answer, e1, e2, e3, e4, e5, e6, e7]

/-- Witness for C1 on the record name "Hub", motd "hi", 4/16 players,
game mode "S", password byte 1, version "1.2". -/
theorem C1_all_fields_roundtrip_witness :
    VS.parse_server_query_answer
        (VS.mkRecord [72, 117, 98] [104, 105] 4 16 [83] 1 [49, 46, 50]) =
      .ok { name := [72, 117, 98], motd := [104, 105], player_count := 4,
            max_players := 16, game_mode := [83], password := true,
            server_version := [49, 46, 50] } :=
  C1_all_fields_roundtrip [72, 117, 98] [104, 105] 4 16 [83] 1 [49, 46, 50]
    [72, 117, 98] [104, 105] [83] [49, 46, 50]
    (by decide) (by decide) (by decide) (by decide)
    (by decide) (by decide) (by decide) (by decide)
    (by decide) (by decide) (by decide)
    (by decide) (by decide) (by decide) (by decide)

/-- C2: with the optional motd (0x12) and password (0x30) fields absent and
the five required fields present in order, parsing succeeds with
`motd = ""` and `password = false`, the other five fields decoded from the
wire bytes; at each skipped optional field the cursor is untouched (the
optional-field step returns the same offset it was given). -/
theorem C2_optional_fields_absent (ns : List Nat) (pc mp : Nat) (gs vs : List Nat)
    (sn sg sv : List Nat)
    (hb1 : VS.isBytes ns) (hb3 : VS.isBytes gs) (hb4 : VS.isBytes vs)
    (hl1 : ns.length < 256) (hl3 : gs.length < 256) (hl4 : vs.length < 256)
    (hpc : pc < 256) (hmp : mp < 256)
    (hdn : VS.decodeUtf8 ns = some sn)
    (hdg : VS.decodeUtf8 gs = some sg) (hdv : VS.decodeUtf8 vs = some sv) :
    VS.parse_server_query_answer (VS.mkRecordNoOpt ns pc mp gs vs) =
      .ok { name := sn, motd := [], player_count := pc, max_players := mp,
            game_mode := sg, password := false, server_version := sv }
    ∧ VS.parseMotd (VS.mkRecordNoOpt ns pc mp gs vs) (2 + ns.length) =
        .ok ([], 2 + ns.length)
    ∧ VS.parsePassword (VS.mkRecordNoOpt ns pc mp gs vs)
        (2 + ns.length + 2 + 2 + 2 + gs.length) =
        .ok (false, 2 + ns.length + 2 + 2 + 2 + gs.length) := by
  have e1 : VS.parseName (VS.mkRecordNoOpt ns pc mp gs vs) = .ok (sn, 2 + ns.length) :=
    VS.parseName_ok _ ns
      (0x18 :: pc :: 0x20 :: mp :: 0x2A :: gs.length ::
        (gs ++ 0x3A :: vs.length :: vs)) sn
      (by simp [VS.mkRecordNoOpt]) hdn
  have e2 : VS.parseMotd (VS.mkRecordNoOpt ns pc mp gs vs) (2 + ns.length) =
      .ok ([], 2 + ns.length) :=
    VS.parseMotd_absent _ (0x0A :: ns.length :: ns) 0x18
      (pc :: 0x20 :: mp :: 0x2A :: gs.length :: (gs ++ 0x3A :: vs.length :: vs)) _
      (by simp [VS.mkRecordNoOpt]) (by simp only [List.length_cons]; omega)
      (by decide)
  have e3 : VS.parseReqScalar 0x18 "Expected field 3 (PlayerCount) tag 0x18"
      (VS.mkRecordNoOpt ns pc mp gs vs) (2 + ns.length) =
      .ok (pc, 2 + ns.length + 2) :=
    VS.parseReqScalar_ok _ _ _ (0x0A :: ns.length :: ns) pc
      (0x20 :: mp :: 0x2A :: gs.length :: (gs ++ 0x3A :: vs.length :: vs)) _
      (by simp [VS.mkRecordNoOpt]) (by simp only [List.length_cons]; omega)
  have e4 : VS.parseReqScalar 0x20 "Expected field 4 (MaxPlayers) tag 0x20"
      (VS.mkRecordNoOpt ns pc mp gs vs) (2 + ns.length + 2) =
      .ok (mp, 2 + ns.length + 2 + 2) :=
    VS.parseReqScalar_ok _ _ _ (0x0A :: ns.length :: (ns ++ [0x18, pc])) mp
      (0x2A :: gs.length :: (gs ++ 0x3A :: vs.length :: vs)) _
      (by simp [VS.mkRecordNoOpt])
      (by simp only [List.length_cons, List.length_append, List.length_nil]; omega)
  have e5 : VS.parseReqString 0x2A "Not enough data to read GameMode content"
      "Expected field 5 (GameMode) tag 0x2A" (VS.mkRecordNoOpt ns pc mp gs vs)
      (2 + ns.length + 2 + 2) =
      .ok (sg, 2 + ns.length + 2 + 2 + 2 + gs.length) :=
    VS.parseReqString_ok _ _ _ _
      (0x0A :: ns.length :: (ns ++ [0x18, pc, 0x20, mp])) gs
      (0x3A :: vs.length :: vs) sg _
      (by simp [VS.mkRecordNoOpt])
      (by simp only [List.length_cons, List.length_append, List.length_nil]; omega) hdg
  have e6 : VS.parsePassword (VS.mkRecordNoOpt ns pc mp gs vs)
      (2 + ns.length + 2 + 2 + 2 + gs.length) =
      .ok (false, 2 + ns.length + 2 + 2 + 2 + gs.length) :=
    VS.parsePassword_absent _
      (0x0A :: ns.length :: (ns ++ 0x18 :: pc :: 0x20 :: mp :: 0x2A :: gs.length :: gs))
      0x3A (vs.length :: vs) _
      (by simp [VS.mkRecordNoOpt])
      (by simp only [List.length_cons, List.length_append]; omega) (by decide)
  have e7 : VS.parseReqString 0x3A "Not enough data to read ServerVersion content"
      "Expected field 7 (ServerVersion) tag 0x3A" (VS.mkRecordNoOpt ns pc mp gs vs)
      (2 + ns.length + 2 + 2 + 2 + gs.length) =
      .ok (sv, 2 + ns.length + 2 + 2 + 2 + gs.length + 2 + vs.length) :=
    VS.parseReqString_ok _ _ _ _
      (0x0A :: ns.length :: (ns ++ 0x18 :: pc :: 0x20 :: mp :: 0x2A :: gs.length :: gs))
      vs [] sv _
      (by simp [VS.mkRecordNoOpt])
      (by simp only [List.length_cons, List.length_append]; omega) hdv
  refine ⟨?_, e2, e6⟩
  simp only [VS.parse_server_query_answer, e1, e2, e3, e4, e5, e6, e7]

/-- Witness for C2 on the record name "Hub", 4/16 players, game mode
"Survival", version "1.20.3" (the spec §8 end-to-end fixture). -/
theorem C2_optional_fields_absent_witness :
    VS.parse_server_query_answer
        (VS.mkRecordNoOpt [72, 117, 98] 4 16
          [83, 117, 114, 118, 105, 118, 97, 108] [49, 46, 50, 48, 46, 51]) =
      .ok { name := [72, 117, 98], motd := [], player_count := 4,
            max_players := 16, game_mode := [83, 117, 114, 118, 105, 118, 97, 108],
            password := false, server_version := [49, 46, 50, 48, 46, 51] } :=
  (C2_optional_fields_absent [72, 117, 98] 4 16
    [83, 117, 114, 118, 105, 118, 97, 108] [49, 46, 50, 48, 46, 51]
    [72, 117, 98] [83, 117, 114, 118, 105, 118, 97, 108] [49, 46, 50, 48, 46, 51]
    (by decide) (by decide) (by decide)
    (by decide) (by decide) (by decide)
    (by decide) (by decide)
    (by decide) (by decide) (by decide)).1

/-- C7: `build_query_packet` always returns exactly six bytes: a 4-byte
big-endian length prefix equal to 2, followed by the two-byte payload
consisting of the field-1 tag byte 0x08 and the opcode byte 0x0F. -/
theorem C7_build_query_packet :
    VS.build_query_packet = [0x00, 0x00, 0x00, 0x02, 0x08, 0x0F] ∧
    VS.build_query_packet.length = 6 ∧
    VS.build_query_packet = VS.pack_u32_be 2 ++ [0x08, 0x0F] := by
  refine ⟨rfl, rfl, rfl⟩

/-- C8: encoding a frame (4-byte big-endian length then the payload,
unmodified) and decoding it with the frame reader (read exactly 4 length
bytes, then exactly that many payload bytes) yields the original payload,
for every payload of length below 2^32. -/
theorem C8_frame_roundtrip (payload : List Nat) (h : payload.length < 2 ^ 32) :
    VS.read_packet (VS.encode_frame payload) = .ok (payload, []) := by
  have h4 : (VS.pack_u32_be payload.length).length = 4 := rfl
  have htake : (VS.pack_u32_be payload.length ++ payload).take 4 =
      VS.pack_u32_be payload.length := by
    rw [← h4, List.take_left]
  have hdrop : (VS.pack_u32_be payload.length ++ payload).drop 4 = payload := by
    rw [← h4, List.drop_left]
  simp [VS.read_packet, VS.readexactly, VS.encode_frame, h4, htake, hdrop,
    VS.unpack_pack_u32 payload.length h]

/-- Witness for C8 at the concrete payload `[1, 2, 3]`. -/
theorem C8_frame_roundtrip_witness :
    VS.read_packet (VS.encode_frame [1, 2, 3]) = .ok ([1, 2, 3], []) :=
  C8_frame_roundtrip [1, 2, 3] (by decide)

/-- C3 counterexample: on input `[0x0A]` the length-byte read runs past the
buffer end and fails with the untyped `IndexError`, not with the explicit
Truncated (`ValueError "Not enough data ..."`) failure the claim requires. -/
theorem C3_counterexample :
    VS.parse_server_query_answer [0x0A] = .error .indexError := by decide

/-- C3 (amended): no decoding operation whose next read would run past the
buffer end ever silently succeeds or zero-fills, but the failure kind depends
on the read.  Universally over every buffer and cursor position: (i) string
content short of its declared length is the Truncated `ValueError`, for all
four string fields; (ii) every unguarded single-byte read past the end (the
field-1 tag byte, every length byte, every scalar value byte) raises the
untyped `IndexError`, shown for every field block and lifted to the whole
parser at each field position over arbitrary well-formed prefixes; (iii) a
guarded tag peek at the end of the buffer never reads past it: required
fields fail with the tag-mismatch `ValueError`, optional fields skip with the
default, again for every field. -/
theorem C3_out_of_bounds_behavior :
    -- (i) string content past the end: Truncated ValueError (Name, MOTD,
    -- and GameMode/ServerVersion via parseReqString)
    (∀ (data : List Nat) (n : Nat), data[0]? = some 0x0A → data[1]? = some n →
      data.length < 2 + n →
      VS.parseName data = .error (.valueError "Not enough data to read Name content"))
    ∧ (∀ (data : List Nat) (off n : Nat), data[off]? = some 0x12 →
        data[off + 1]? = some n → data.length < off + 2 + n →
      VS.parseMotd data off = .error (.valueError "Not enough data to read MOTD content"))
    ∧ (∀ (tag : Nat) (m1 m2 : String) (data : List Nat) (off n : Nat),
        data[off]? = some tag → data[off + 1]? = some n →
        data.length < off + 2 + n →
      VS.parseReqString tag m1 m2 data off = .error (.valueError m1))
    -- (ii) unguarded single-byte reads past the end: IndexError
    ∧ VS.parse_server_query_answer [] = .error .indexError
    ∧ (∀ data : List Nat, data[0]? = some 0x0A → data[1]? = none →
        VS.parse_server_query_answer data = .error .indexError)
    ∧ (∀ (data : List Nat) (off : Nat), data[off]? = some 0x12 →
        data[off + 1]? = none → VS.parseMotd data off = .error .indexError)
    ∧ (∀ (tag : Nat) (msg : String) (data : List Nat) (off : Nat),
        data[off]? = some tag → data[off + 1]? = none →
        VS.parseReqScalar tag msg data off = .error .indexError)
    ∧ (∀ (tag : Nat) (m1 m2 : String) (data : List Nat) (off : Nat),
        data[off]? = some tag → data[off + 1]? = none →
        VS.parseReqString tag m1 m2 data off = .error .indexError)
    ∧ (∀ (data : List Nat) (off : Nat), data[off]? = some 0x30 →
        data[off + 1]? = none → VS.parsePassword data off = .error .indexError)
    -- (iii) guarded tag peeks at end of buffer: required-field ValueError,
    -- optional-field skip with the default
    ∧ (∀ (tag : Nat) (msg : String) (data : List Nat) (off : Nat),
        data.length ≤ off →
        VS.parseReqScalar tag msg data off = .error (.valueError msg))
    ∧ (∀ (tag : Nat) (m1 m2 : String) (data : List Nat) (off : Nat),
        data.length ≤ off →
        VS.parseReqString tag m1 m2 data off = .error (.valueError m2))
    ∧ (∀ (data : List Nat) (off : Nat), data.length ≤ off →
        VS.parseMotd data off = .ok ([], off)
        ∧ VS.parsePassword data off = .ok (false, off))
    -- (ii) lifted to the whole parser: the MOTD length byte, PlayerCount,
    -- MaxPlayers and Password value bytes and the GameMode and ServerVersion
    -- length bytes at end of buffer, over every well-formed prefix
    ∧ (∀ ns sn : List Nat, VS.decodeUtf8 ns = some sn →
        VS.parse_server_query_answer (0x0A :: ns.length :: (ns ++ [0x12])) =
          .error .indexError)
    ∧ (∀ ns sn : List Nat, VS.decodeUtf8 ns = some sn →
        VS.parse_server_query_answer (0x0A :: ns.length :: (ns ++ [0x18])) =
          .error .indexError)
    ∧ (∀ (ns sn : List Nat) (pc : Nat), VS.decodeUtf8 ns = some sn →
        VS.parse_server_query_answer (0x0A :: ns.length :: (ns ++ [0x18, pc, 0x20])) =
          .error .indexError)
    ∧ (∀ (ns sn : List Nat) (pc mp : Nat), VS.decodeUtf8 ns = some sn →
        VS.parse_server_query_answer
            (0x0A :: ns.length :: (ns ++ [0x18, pc, 0x20, mp, 0x2A])) =
          .error .indexError)
    ∧ (∀ (ns sn gs sg : List Nat) (pc mp : Nat), VS.decodeUtf8 ns = some sn →
        VS.decodeUtf8 gs = some sg →
        VS.parse_server_query_answer
            (0x0A :: ns.length :: (ns ++ 0x18 :: pc :: 0x20 :: mp ::
              0x2A :: gs.length :: (gs ++ [0x30]))) =
          .error .indexError)
    ∧ (∀ (ns sn gs sg : List Nat) (pc mp pw : Nat), VS.decodeUtf8 ns = some sn →
        VS.decodeUtf8 gs = some sg →
        VS.parse_server_query_answer
            (0x0A :: ns.length :: (ns ++ 0x18 :: pc :: 0x20 :: mp ::
              0x2A :: gs.length :: (gs ++ [0x30, pw, 0x3A]))) =
          .error .indexError)
    -- (iii) lifted to the whole parser: the required tag peeks of fields
    -- 3, 4, 5 and 7 at end of buffer, over every well-formed prefix
    ∧ (∀ ns sn : List Nat, VS.decodeUtf8 ns = some sn →
        VS.parse_server_query_answer (0x0A :: ns.length :: ns) =
          .error (.valueError "Expected field 3 (PlayerCount) tag 0x18"))
    ∧ (∀ (ns sn : List Nat) (pc : Nat), VS.decodeUtf8 ns = some sn →
        VS.parse_server_query_answer (0x0A :: ns.length :: (ns ++ [0x18, pc])) =
          .error (.valueError "Expected field 4 (MaxPlayers) tag 0x20"))
    ∧ (∀ (ns sn : List Nat) (pc mp : Nat), VS.decodeUtf8 ns = some sn →
        VS.parse_server_query_answer
            (0x0A :: ns.length :: (ns ++ [0x18, pc, 0x20, mp])) =
          .error (.valueError "Expected field 5 (GameMode) tag 0x2A"))
    ∧ (∀ (ns sn gs sg : List Nat) (pc mp : Nat), VS.decodeUtf8 ns = some sn →
        VS.decodeUtf8 gs = some sg →
        VS.parse_server_query_answer
            (0x0A :: ns.length :: (ns ++ 0x18 :: pc :: 0x20 :: mp ::
              0x2A :: gs.length :: gs)) =
          .error (.valueError "Expected field 7 (ServerVersion) tag 0x3A")) := by
  refine ⟨VS.parseName_content_oob, VS.parseMotd_content_oob,
    VS.parseReqString_content_oob, by decide, ?_, VS.parseMotd_idx_oob,
    VS.parseReqScalar_idx_oob, VS.parseReqString_idx_oob, VS.parsePassword_idx_oob,
    VS.parseReqScalar_eob, VS.parseReqString_eob,
    fun data off h => ⟨VS.parseMotd_eob data off h, VS.parsePassword_eob data off h⟩,
    ?_, ?_, ?_, ?_, ?_, ?_, ?_, ?_, ?_, ?_⟩
  · -- name length byte past the end
    intro data h0 h1
    have e1 := VS.parseName_idx_oob data h0 h1
    simp only [VS.parse_server_query_answer, e1]
  · -- MOTD length byte past the end
    intro ns sn hdn
    have e1 : VS.parseName (0x0A :: ns.length :: (ns ++ [0x12])) =
        .ok (sn, 2 + ns.length) := VS.parseName_ok _ ns [0x12] sn rfl hdn
    have h0 : (0x0A :: ns.length :: (ns ++ [0x12]))[2 + ns.length]? = some 0x12 :=
      VS.get_at _ (0x0A :: ns.length :: ns) 0x12 [] _ (by simp)
        (by simp only [List.length_cons]; omega)
    have h1 : (0x0A :: ns.length :: (ns ++ [0x12]))[2 + ns.length + 1]? = none :=
      List.getElem?_eq_none
        (by simp only [List.length_cons, List.length_append, List.length_nil]; omega)
    have e2 : VS.parseMotd (0x0A :: ns.length :: (ns ++ [0x12])) (2 + ns.length) =
        .error .indexError := VS.parseMotd_idx_oob _ _ h0 h1
    simp only [VS.parse_server_query_answer, e1, e2]
  · -- PlayerCount value byte past the end
    intro ns sn hdn
    have e1 : VS.parseName (0x0A :: ns.length :: (ns ++ [0x18])) =
        .ok (sn, 2 + ns.length) := VS.parseName_ok _ ns [0x18] sn rfl hdn
    have e2 : VS.parseMotd (0x0A :: ns.length :: (ns ++ [0x18])) (2 + ns.length) =
        .ok ([], 2 + ns.length) :=
      VS.parseMotd_absent _ (0x0A :: ns.length :: ns) 0x18 [] _ (by simp)
        (by simp only [List.length_cons]; omega) (by decide)
    have h0 : (0x0A :: ns.length :: (ns ++ [0x18]))[2 + ns.length]? = some 0x18 :=
      VS.get_at _ (0x0A :: ns.length :: ns) 0x18 [] _ (by simp)
        (by simp only [List.length_cons]; omega)
    have h1 : (0x0A :: ns.length :: (ns ++ [0x18]))[2 + ns.length + 1]? = none :=
      List.getElem?_eq_none
        (by simp only [List.length_cons, List.length_append, List.length_nil]; omega)
    have e3 : VS.parseReqScalar 0x18 "Expected field 3 (PlayerCount) tag 0x18"
        (0x0A :: ns.length :: (ns ++ [0x18])) (2 + ns.length) =
        .error .indexError := VS.parseReqScalar_idx_oob _ _ _ _ h0 h1
    simp only [VS.parse_server_query_answer, e1, e2, e3]
  · -- MaxPlayers value byte past the end
    intro ns sn pc hdn
    have e1 : VS.parseName (0x0A :: ns.length :: (ns ++ [0x18, pc, 0x20])) =
        .ok (sn, 2 + ns.length) := VS.parseName_ok _ ns [0x18, pc, 0x20] sn rfl hdn
    have e2 : VS.parseMotd (0x0A :: ns.length :: (ns ++ [0x18, pc, 0x20]))
        (2 + ns.length) = .ok ([], 2 + ns.length) :=
      VS.parseMotd_absent _ (0x0A :: ns.length :: ns) 0x18 [pc, 0x20] _ (by simp)
        (by simp only [List.length_cons]; omega) (by decide)
    have e3 : VS.parseReqScalar 0x18 "Expected field 3 (PlayerCount) tag 0x18"
        (0x0A :: ns.length :: (ns ++ [0x18, pc, 0x20])) (2 + ns.length) =
        .ok (pc, 2 + ns.length + 2) :=
      VS.parseReqScalar_ok _ _ _ (0x0A :: ns.length :: ns) pc [0x20] _ (by simp)
        (by simp only [List.length_cons]; omega)
    have h0 : (0x0A :: ns.length :: (ns ++ [0x18, pc, 0x20]))[2 + ns.length + 2]? =
        some 0x20 :=
      VS.get_at _ (0x0A :: ns.length :: (ns ++ [0x18, pc])) 0x20 [] _ (by simp)
        (by simp only [List.length_cons, List.length_append, List.length_nil]; omega)
    have h1 : (0x0A :: ns.length :: (ns ++ [0x18, pc, 0x20]))[2 + ns.length + 2 + 1]? =
        none :=
      List.getElem?_eq_none
        (by simp only [List.length_cons, List.length_append, List.length_nil]; omega)
    have e4 : VS.parseReqScalar 0x20 "Expected field 4 (MaxPlayers) tag 0x20"
        (0x0A :: ns.length :: (ns ++ [0x18, pc, 0x20])) (2 + ns.length + 2) =
        .error .indexError := VS.parseReqScalar_idx_oob _ _ _ _ h0 h1
    simp only [VS.parse_server_query_answer, e1, e2, e3, e4]
  · -- GameMode length byte past the end
    intro ns sn pc mp hdn
    have e1 : VS.parseName (0x0A :: ns.length :: (ns ++ [0x18, pc, 0x20, mp, 0x2A])) =
        .ok (sn, 2 + ns.length) :=
      VS.parseName_ok _ ns [0x18, pc, 0x20, mp, 0x2A] sn rfl hdn
    have e2 : VS.parseMotd (0x0A :: ns.length :: (ns ++ [0x18, pc, 0x20, mp, 0x2A]))
        (2 + ns.length) = .ok ([], 2 + ns.length) :=
      VS.parseMotd_absent _ (0x0A :: ns.length :: ns) 0x18 [pc, 0x20, mp, 0x2A] _
        (by simp) (by simp only [List.length_cons]; omega) (by decide)
    have e3 : VS.parseReqScalar 0x18 "Expected field 3 (PlayerCount) tag 0x18"
        (0x0A :: ns.length :: (ns ++ [0x18, pc, 0x20, mp, 0x2A])) (2 + ns.length) =
        .ok (pc, 2 + ns.length + 2) :=
      VS.parseReqScalar_ok _ _ _ (0x0A :: ns.length :: ns) pc [0x20, mp, 0x2A] _
        (by simp) (by simp only [List.length_cons]; omega)
    have e4 : VS.parseReqScalar 0x20 "Expected field 4 (MaxPlayers) tag 0x20"
        (0x0A :: ns.length :: (ns ++ [0x18, pc, 0x20, mp, 0x2A]))
        (2 + ns.length + 2) = .ok (mp, 2 + ns.length + 2 + 2) :=
      VS.parseReqScalar_ok _ _ _ (0x0A :: ns.length :: (ns ++ [0x18, pc])) mp
        [0x2A] _ (by simp)
        (by simp only [List.length_cons, List.length_append, List.length_nil]; omega)
    have h0 : (0x0A :: ns.length ::
        (ns ++ [0x18, pc, 0x20, mp, 0x2A]))[2 + ns.length + 2 + 2]? = some 0x2A :=
      VS.get_at _ (0x0A :: ns.length :: (ns ++ [0x18, pc, 0x20, mp])) 0x2A [] _
        (by simp)
        (by simp only [List.length_cons, List.length_append, List.length_nil]; omega)
    have h1 : (0x0A :: ns.length ::
        (ns ++ [0x18, pc, 0x20, mp, 0x2A]))[2 + ns.length + 2 + 2 + 1]? = none :=
      List.getElem?_eq_none
        (by simp only [List.length_cons, List.length_append, List.length_nil]; omega)
    have e5 : VS.parseReqString 0x2A "Not enough data to read GameMode content"
        "Expected field 5 (GameMode) tag 0x2A"
        (0x0A :: ns.length :: (ns ++ [0x18, pc, 0x20, mp, 0x2A]))
        (2 + ns.length + 2 + 2) = .error .indexError :=
      VS.parseReqString_idx_oob _ _ _ _ _ h0 h1
    simp only [VS.parse_server_query_answer, e1, e2, e3, e4, e5]
  · -- Password value byte past the end
    intro ns sn gs sg pc mp hdn hdg
    have e1 : VS.parseName (0x0A :: ns.length :: (ns ++ 0x18 :: pc :: 0x20 :: mp ::
        0x2A :: gs.length :: (gs ++ [0x30]))) = .ok (sn, 2 + ns.length) :=
      VS.parseName_ok _ ns
        (0x18 :: pc :: 0x20 :: mp :: 0x2A :: gs.length :: (gs ++ [0x30])) sn rfl hdn
    have e2 : VS.parseMotd (0x0A :: ns.length :: (ns ++ 0x18 :: pc :: 0x20 :: mp ::
        0x2A :: gs.length :: (gs ++ [0x30]))) (2 + ns.length) =
        .ok ([], 2 + ns.length) :=
      VS.parseMotd_absent _ (0x0A :: ns.length :: ns) 0x18
        (pc :: 0x20 :: mp :: 0x2A :: gs.length :: (gs ++ [0x30])) _ (by simp)
        (by simp only [List.length_cons]; omega) (by decide)
    have e3 : VS.parseReqScalar 0x18 "Expected field 3 (PlayerCount) tag 0x18"
        (0x0A :: ns.length :: (ns ++ 0x18 :: pc :: 0x20 :: mp ::
          0x2A :: gs.length :: (gs ++ [0x30]))) (2 + ns.length) =
        .ok (pc, 2 + ns.length + 2) :=
      VS.parseReqScalar_ok _ _ _ (0x0A :: ns.length :: ns) pc
        (0x20 :: mp :: 0x2A :: gs.length :: (gs ++ [0x30])) _ (by simp)
        (by simp only [List.length_cons]; omega)
    have e4 : VS.parseReqScalar 0x20 "Expected field 4 (MaxPlayers) tag 0x20"
        (0x0A :: ns.length :: (ns ++ 0x18 :: pc :: 0x20 :: mp ::
          0x2A :: gs.length :: (gs ++ [0x30]))) (2 + ns.length + 2) =
        .ok (mp, 2 + ns.length + 2 + 2) :=
      VS.parseReqScalar_ok _ _ _ (0x0A :: ns.length :: (ns ++ [0x18, pc])) mp
        (0x2A :: gs.length :: (gs ++ [0x30])) _ (by simp)
        (by simp only [List.length_cons, List.length_append, List.length_nil]; omega)
    have e5 : VS.parseReqString 0x2A "Not enough data to read GameMode content"
        "Expected field 5 (GameMode) tag 0x2A"
        (0x0A :: ns.length :: (ns ++ 0x18 :: pc :: 0x20 :: mp ::
          0x2A :: gs.length :: (gs ++ [0x30]))) (2 + ns.length + 2 + 2) =
        .ok (sg, 2 + ns.length + 2 + 2 + 2 + gs.length) :=
      VS.parseReqString_ok _ _ _ _
        (0x0A :: ns.length :: (ns ++ [0x18, pc, 0x20, mp])) gs [0x30] sg _
        (by simp)
        (by simp only [List.length_cons, List.length_append, List.length_nil]; omega)
        hdg
    have h0 : (0x0A :: ns.length :: (ns ++ 0x18 :: pc :: 0x20 :: mp ::
        0x2A :: gs.length :: (gs ++ [0x30])))[2 + ns.length + 2 + 2 + 2 + gs.length]? =
        some 0x30 :=
      VS.get_at _ (0x0A :: ns.length :: (ns ++ 0x18 :: pc :: 0x20 :: mp ::
          0x2A :: gs.length :: gs)) 0x30 [] _ (by simp)
        (by simp only [List.length_cons, List.length_append]; omega)
    have h1 : (0x0A :: ns.length :: (ns ++ 0x18 :: pc :: 0x20 :: mp ::
        0x2A :: gs.length ::
          (gs ++ [0x30])))[2 + ns.length + 2 + 2 + 2 + gs.length + 1]? = none :=
      List.getElem?_eq_none
        (by simp only [List.length_cons, List.length_append, List.length_nil]; omega)
    have e6 : VS.parsePassword (0x0A :: ns.length :: (ns ++ 0x18 :: pc :: 0x20 ::
        mp :: 0x2A :: gs.length :: (gs ++ [0x30])))
        (2 + ns.length + 2 + 2 + 2 + gs.length) = .error .indexError :=
      VS.parsePassword_idx_oob _ _ h0 h1
    simp only [VS.parse_server_query_answer, e1, e2, e3, e4, e5, e6]
  · -- ServerVersion length byte past the end
    intro ns sn gs sg pc mp pw hdn hdg
    have e1 : VS.parseName (0x0A :: ns.length :: (ns ++ 0x18 :: pc :: 0x20 :: mp ::
        0x2A :: gs.length :: (gs ++ [0x30, pw, 0x3A]))) = .ok (sn, 2 + ns.length) :=
      VS.parseName_ok _ ns
        (0x18 :: pc :: 0x20 :: mp :: 0x2A :: gs.length :: (gs ++ [0x30, pw, 0x3A]))
        sn rfl hdn
    have e2 : VS.parseMotd (0x0A :: ns.length :: (ns ++ 0x18 :: pc :: 0x20 :: mp ::
        0x2A :: gs.length :: (gs ++ [0x30, pw, 0x3A]))) (2 + ns.length) =
        .ok ([], 2 + ns.length) :=
      VS.parseMotd_absent _ (0x0A :: ns.length :: ns) 0x18
        (pc :: 0x20 :: mp :: 0x2A :: gs.length :: (gs ++ [0x30, pw, 0x3A])) _
        (by simp) (by simp only [List.length_cons]; omega) (by decide)
    have e3 : VS.parseReqScalar 0x18 "Expected field 3 (PlayerCount) tag 0x18"
        (0x0A :: ns.length :: (ns ++ 0x18 :: pc :: 0x20 :: mp ::
          0x2A :: gs.length :: (gs ++ [0x30, pw, 0x3A]))) (2 + ns.length) =
        .ok (pc, 2 + ns.length + 2) :=
      VS.parseReqScalar_ok _ _ _ (0x0A :: ns.length :: ns) pc
        (0x20 :: mp :: 0x2A :: gs.length :: (gs ++ [0x30, pw, 0x3A])) _ (by simp)
        (by simp only [List.length_cons]; omega)
    have e4 : VS.parseReqScalar 0x20 "Expected field 4 (MaxPlayers) tag 0x20"
        (0x0A :: ns.length :: (ns ++ 0x18 :: pc :: 0x20 :: mp ::
          0x2A :: gs.length :: (gs ++ [0x30, pw, 0x3A]))) (2 + ns.length + 2) =
        .ok (mp, 2 + ns.length + 2 + 2) :=
      VS.parseReqScalar_ok _ _ _ (0x0A :: ns.length :: (ns ++ [0x18, pc])) mp
        (0x2A :: gs.length :: (gs ++ [0x30, pw, 0x3A])) _ (by simp)
        (by simp only [List.length_cons, List.length_append, List.length_nil]; omega)
    have e5 : VS.parseReqString 0x2A "Not enough data to read GameMode content"
        "Expected field 5 (GameMode) tag 0x2A"
        (0x0A :: ns.length :: (ns ++ 0x18 :: pc :: 0x20 :: mp ::
          0x2A :: gs.length :: (gs ++ [0x30, pw, 0x3A]))) (2 + ns.length + 2 + 2) =
        .ok (sg, 2 + ns.length + 2 + 2 + 2 + gs.length) :=
      VS.parseReqString_ok _ _ _ _
        (0x0A :: ns.length :: (ns ++ [0x18, pc, 0x20, mp])) gs [0x30, pw, 0x3A] sg _
        (by simp)
        (by simp only [List.length_cons, List.length_append, List.length_nil]; omega)
        hdg
    have e6 : VS.parsePassword (0x0A :: ns.length :: (ns ++ 0x18 :: pc :: 0x20 ::
        mp :: 0x2A :: gs.length :: (gs ++ [0x30, pw, 0x3A])))
        (2 + ns.length + 2 + 2 + 2 + gs.length) =
        .ok (pw != 0, 2 + ns.length + 2 + 2 + 2 + gs.length + 2) :=
      VS.parsePassword_present _
        (0x0A :: ns.length :: (ns ++ 0x18 :: pc :: 0x20 :: mp ::
          0x2A :: gs.length :: gs)) pw [0x3A] _ (by simp)
        (by simp only [List.length_cons, List.length_append]; omega)
    have h0 : (0x0A :: ns.length :: (ns ++ 0x18 :: pc :: 0x20 :: mp ::
        0x2A :: gs.length ::
          (gs ++ [0x30, pw, 0x3A])))[2 + ns.length + 2 + 2 + 2 + gs.length + 2]? =
        some 0x3A :=
      VS.get_at _ (0x0A :: ns.length :: (ns ++ 0x18 :: pc :: 0x20 :: mp ::
          0x2A :: gs.length :: (gs ++ [0x30, pw]))) 0x3A [] _ (by simp)
        (by simp only [List.length_cons, List.length_append, List.length_nil]; omega)
    have h1 : (0x0A :: ns.length :: (ns ++ 0x18 :: pc :: 0x20 :: mp ::
        0x2A :: gs.length ::
          (gs ++ [0x30, pw, 0x3A])))[2 + ns.length + 2 + 2 + 2 + gs.length + 2 + 1]? =
        none :=
      List.getElem?_eq_none
        (by simp only [List.length_cons, List.length_append, List.length_nil]; omega)
    have e7 : VS.parseReqString 0x3A "Not enough data to read ServerVersion content"
        "Expected field 7 (ServerVersion) tag 0x3A"
        (0x0A :: ns.length :: (ns ++ 0x18 :: pc :: 0x20 :: mp ::
          0x2A :: gs.length :: (gs ++ [0x30, pw, 0x3A])))
        (2 + ns.length + 2 + 2 + 2 + gs.length + 2) = .error .indexError :=
      VS.parseReqString_idx_oob _ _ _ _ _ h0 h1
    simp only [VS.parse_server_query_answer, e1, e2, e3, e4, e5, e6, e7]
  · -- field-3 tag peek at end of buffer
    intro ns sn hdn
    have e1 : VS.parseName (0x0A :: ns.length :: ns) = .ok (sn, 2 + ns.length) :=
      VS.parseName_ok _ ns [] sn (by simp) hdn
    have e2 : VS.parseMotd (0x0A :: ns.length :: ns) (2 + ns.length) =
        .ok ([], 2 + ns.length) :=
      VS.parseMotd_eob _ _ (by simp only [List.length_cons]; omega)
    have e3 : VS.parseReqScalar 0x18 "Expected field 3 (PlayerCount) tag 0x18"
        (0x0A :: ns.length :: ns) (2 + ns.length) =
        .error (.valueError "Expected field 3 (PlayerCount) tag 0x18") :=
      VS.parseReqScalar_eob _ _ _ _ (by simp only [List.length_cons]; omega)
    simp only [VS.parse_server_query_answer, e1, e2, e3]
  · -- field-4 tag peek at end of buffer
    intro ns sn pc hdn
    have e1 : VS.parseName (0x0A :: ns.length :: (ns ++ [0x18, pc])) =
        .ok (sn, 2 + ns.length) := VS.parseName_ok _ ns [0x18, pc] sn rfl hdn
    have e2 : VS.parseMotd (0x0A :: ns.length :: (ns ++ [0x18, pc]))
        (2 + ns.length) = .ok ([], 2 + ns.length) :=
      VS.parseMotd_absent _ (0x0A :: ns.length :: ns) 0x18 [pc] _ (by simp)
        (by simp only [List.length_cons]; omega) (by decide)
    have e3 : VS.parseReqScalar 0x18 "Expected field 3 (PlayerCount) tag 0x18"
        (0x0A :: ns.length :: (ns ++ [0x18, pc])) (2 + ns.length) =
        .ok (pc, 2 + ns.length + 2) :=
      VS.parseReqScalar_ok _ _ _ (0x0A :: ns.length :: ns) pc [] _ (by simp)
        (by simp only [List.length_cons]; omega)
    have e4 : VS.parseReqScalar 0x20 "Expected field 4 (MaxPlayers) tag 0x20"
        (0x0A :: ns.length :: (ns ++ [0x18, pc])) (2 + ns.length + 2) =
        .error (.valueError "Expected field 4 (MaxPlayers) tag 0x20") :=
      VS.parseReqScalar_eob _ _ _ _
        (by simp only [List.length_cons, List.length_append, List.length_nil]; omega)
    simp only [VS.parse_server_query_answer, e1, e2, e3, e4]
  · -- field-5 tag peek at end of buffer
    intro ns sn pc mp hdn
    have e1 : VS.parseName (0x0A :: ns.length :: (ns ++ [0x18, pc, 0x20, mp])) =
        .ok (sn, 2 + ns.length) :=
      VS.parseName_ok _ ns [0x18, pc, 0x20, mp] sn rfl hdn
    have e2 : VS.parseMotd (0x0A :: ns.length :: (ns ++ [0x18, pc, 0x20, mp]))
        (2 + ns.length) = .ok ([], 2 + ns.length) :=
      VS.parseMotd_absent _ (0x0A :: ns.length :: ns) 0x18 [pc, 0x20, mp] _
        (by simp) (by simp only [List.length_cons]; omega) (by decide)
    have e3 : VS.parseReqScalar 0x18 "Expected field 3 (PlayerCount) tag 0x18"
        (0x0A :: ns.length :: (ns ++ [0x18, pc, 0x20, mp])) (2 + ns.length) =
        .ok (pc, 2 + ns.length + 2) :=
      VS.parseReqScalar_ok _ _ _ (0x0A :: ns.length :: ns) pc [0x20, mp] _
        (by simp) (by simp only [List.length_cons]; omega)
    have e4 : VS.parseReqScalar 0x20 "Expected field 4 (MaxPlayers) tag 0x20"
        (0x0A :: ns.length :: (ns ++ [0x18, pc, 0x20, mp])) (2 + ns.length + 2) =
        .ok (mp, 2 + ns.length + 2 + 2) :=
      VS.parseReqScalar_ok _ _ _ (0x0A :: ns.length :: (ns ++ [0x18, pc])) mp [] _
        (by simp)
        (by simp only [List.length_cons, List.length_append, List.length_nil]; omega)
    have e5 : VS.parseReqString 0x2A "Not enough data to read GameMode content"
        "Expected field 5 (GameMode) tag 0x2A"
        (0x0A :: ns.length :: (ns ++ [0x18, pc, 0x20, mp])) (2 + ns.length + 2 + 2) =
        .error (.valueError "Expected field 5 (GameMode) tag 0x2A") :=
      VS.parseReqString_eob _ _ _ _ _
        (by simp only [List.length_cons, List.length_append, List.length_nil]; omega)
    simp only [VS.parse_server_query_answer, e1, e2, e3, e4, e5]
  · -- field-7 tag peek at end of buffer (the password peek skips first)
    intro ns sn gs sg pc mp hdn hdg
    have e1 : VS.parseName (0x0A :: ns.length :: (ns ++ 0x18 :: pc :: 0x20 :: mp ::
        0x2A :: gs.length :: gs)) = .ok (sn, 2 + ns.length) :=
      VS.parseName_ok _ ns (0x18 :: pc :: 0x20 :: mp :: 0x2A :: gs.length :: gs)
        sn rfl hdn
    have e2 : VS.parseMotd (0x0A :: ns.length :: (ns ++ 0x18 :: pc :: 0x20 :: mp ::
        0x2A :: gs.length :: gs)) (2 + ns.length) = .ok ([], 2 + ns.length) :=
      VS.parseMotd_absent _ (0x0A :: ns.length :: ns) 0x18
        (pc :: 0x20 :: mp :: 0x2A :: gs.length :: gs) _ (by simp)
        (by simp only [List.length_cons]; omega) (by decide)
    have e3 : VS.parseReqScalar 0x18 "Expected field 3 (PlayerCount) tag 0x18"
        (0x0A :: ns.length :: (ns ++ 0x18 :: pc :: 0x20 :: mp ::
          0x2A :: gs.length :: gs)) (2 + ns.length) = .ok (pc, 2 + ns.length + 2) :=
      VS.parseReqScalar_ok _ _ _ (0x0A :: ns.length :: ns) pc
        (0x20 :: mp :: 0x2A :: gs.length :: gs) _ (by simp)
        (by simp only [List.length_cons]; omega)
    have e4 : VS.parseReqScalar 0x20 "Expected field 4 (MaxPlayers) tag 0x20"
        (0x0A :: ns.length :: (ns ++ 0x18 :: pc :: 0x20 :: mp ::
          0x2A :: gs.length :: gs)) (2 + ns.length + 2) =
        .ok (mp, 2 + ns.length + 2 + 2) :=
      VS.parseReqScalar_ok _ _ _ (0x0A :: ns.length :: (ns ++ [0x18, pc])) mp
        (0x2A :: gs.length :: gs) _ (by simp)
        (by simp only [List.length_cons, List.length_append, List.length_nil]; omega)
    have e5 : VS.parseReqString 0x2A "Not enough data to read GameMode content"
        "Expected field 5 (GameMode) tag 0x2A"
        (0x0A :: ns.length :: (ns ++ 0x18 :: pc :: 0x20 :: mp ::
          0x2A :: gs.length :: gs)) (2 + ns.length + 2 + 2) =
        .ok (sg, 2 + ns.length + 2 + 2 + 2 + gs.length) :=
      VS.parseReqString_ok _ _ _ _
        (0x0A :: ns.length :: (ns ++ [0x18, pc, 0x20, mp])) gs [] sg _ (by simp)
        (by simp only [List.length_cons, List.length_append, List.length_nil]; omega)
        hdg
    have e6 : VS.parsePassword (0x0A :: ns.length :: (ns ++ 0x18 :: pc :: 0x20 ::
        mp :: 0x2A :: gs.length :: gs)) (2 + ns.length + 2 + 2 + 2 + gs.length) =
        .ok (false, 2 + ns.length + 2 + 2 + 2 + gs.length) :=
      VS.parsePassword_eob _ _
        (by simp only [List.length_cons, List.length_append]; omega)
    have e7 : VS.parseReqString 0x3A "Not enough data to read ServerVersion content"
        "Expected field 7 (ServerVersion) tag 0x3A"
        (0x0A :: ns.length :: (ns ++ 0x18 :: pc :: 0x20 :: mp ::
          0x2A :: gs.length :: gs)) (2 + ns.length + 2 + 2 + 2 + gs.length) =
        .error (.valueError "Expected field 7 (ServerVersion) tag 0x3A") :=
      VS.parseReqString_eob _ _ _ _ _
        (by simp only [List.length_cons, List.length_append]; omega)
    simp only [VS.parse_server_query_answer, e1, e2, e3, e4, e5, e6, e7]

/-- Witness for C3 (amended): every universally quantified clause applied at
a concrete input — content truncation for each string shape, IndexError for
every unguarded length/scalar/tag byte at the end of the buffer (both at the
block level and through the whole parser), and the end-of-buffer tag peeks
of fields 3, 4, 5 and 7 (required: ValueError; optional: default skip). -/
theorem C3_out_of_bounds_behavior_witness :
    VS.parseName [0x0A, 5, 65] =
      .error (.valueError "Not enough data to read Name content")
    ∧ VS.parseMotd [0x12, 9, 66] 0 =
      .error (.valueError "Not enough data to read MOTD content")
    ∧ VS.parseReqString 0x2A "Not enough data to read GameMode content"
        "Expected field 5 (GameMode) tag 0x2A" [0x2A, 7] 0 =
      .error (.valueError "Not enough data to read GameMode content")
    ∧ VS.parse_server_query_answer [] = .error .indexError
    ∧ VS.parse_server_query_answer [0x0A] = .error .indexError
    ∧ VS.parseMotd [0x12] 0 = .error .indexError
    ∧ VS.parseReqScalar 0x18 "Expected field 3 (PlayerCount) tag 0x18" [0x18] 0 =
      .error .indexError
    ∧ VS.parseReqString 0x3A "Not enough data to read ServerVersion content"
        "Expected field 7 (ServerVersion) tag 0x3A" [0x3A] 0 = .error .indexError
    ∧ VS.parsePassword [0x30] 0 = .error .indexError
    ∧ VS.parseReqScalar 0x20 "Expected field 4 (MaxPlayers) tag 0x20" [] 0 =
      .error (.valueError "Expected field 4 (MaxPlayers) tag 0x20")
    ∧ VS.parseReqString 0x3A "Not enough data to read ServerVersion content"
        "Expected field 7 (ServerVersion) tag 0x3A" [] 0 =
      .error (.valueError "Expected field 7 (ServerVersion) tag 0x3A")
    ∧ (VS.parseMotd [] 0 = .ok ([], 0) ∧ VS.parsePassword [] 0 = .ok (false, 0))
    ∧ VS.parse_server_query_answer [0x0A, 1, 65, 0x12] = .error .indexError
    ∧ VS.parse_server_query_answer [0x0A, 0, 0x18] = .error .indexError
    ∧ VS.parse_server_query_answer [0x0A, 0, 0x18, 5, 0x20] = .error .indexError
    ∧ VS.parse_server_query_answer [0x0A, 0, 0x18, 5, 0x20, 16, 0x2A] =
      .error .indexError
    ∧ VS.parse_server_query_answer [0x0A, 0, 0x18, 5, 0x20, 16, 0x2A, 1, 83, 0x30] =
      .error .indexError
    ∧ VS.parse_server_query_answer [0x0A, 0, 0x18, 5, 0x20, 16, 0x2A, 0, 0x30, 1, 0x3A] =
      .error .indexError
    ∧ VS.parse_server_query_answer [0x0A, 0] =
      .error (.valueError "Expected field 3 (PlayerCount) tag 0x18")
    ∧ VS.parse_server_query_answer [0x0A, 0, 0x18, 5] =
      .error (.valueError "Expected field 4 (MaxPlayers) tag 0x20")
    ∧ VS.parse_server_query_answer [0x0A, 0, 0x18, 5, 0x20, 16] =
      .error (.valueError "Expected field 5 (GameMode) tag 0x2A")
    ∧ VS.parse_server_query_answer [0x0A, 0, 0x18, 5, 0x20, 16, 0x2A, 1, 83] =
      .error (.valueError "Expected field 7 (ServerVersion) tag 0x3A") := by
  obtain ⟨t1, t2, t3, t4, t5, t6, t7, t8, t9, t10, t11, t12,
    t13, t14, t15, t16, t17, t18, t19, t20, t21, t22⟩ := C3_out_of_bounds_behavior
  exact ⟨t1 [0x0A, 5, 65] 5 (by decide) (by decide) (by decide),
    t2 [0x12, 9, 66] 0 9 (by decide) (by decide) (by decide),
    t3 0x2A "Not enough data to read GameMode content"
      "Expected field 5 (GameMode) tag 0x2A" [0x2A, 7] 0 7
      (by decide) (by decide) (by decide),
    t4,
    t5 [0x0A] (by decide) (by decide),
    t6 [0x12] 0 (by decide) (by decide),
    t7 0x18 "Expected field 3 (PlayerCount) tag 0x18" [0x18] 0
      (by decide) (by decide),
    t8 0x3A "Not enough data to read ServerVersion content"
      "Expected field 7 (ServerVersion) tag 0x3A" [0x3A] 0 (by decide) (by decide),
    t9 [0x30] 0 (by decide) (by decide),
    t10 0x20 "Expected field 4 (MaxPlayers) tag 0x20" [] 0 (by decide),
    t11 0x3A "Not enough data to read ServerVersion content"
      "Expected field 7 (ServerVersion) tag 0x3A" [] 0 (by decide),
    t12 [] 0 (by decide),
    t13 [65] [65] (by decide),
    t14 [] [] (by decide),
    t15 [] [] 5 (by decide),
    t16 [] [] 5 16 (by decide),
    t17 [] [] [83] [83] 5 16 (by decide) (by decide),
    t18 [] [] [] [] 5 16 1 (by decide) (by decide),
    t19 [] [] (by decide),
    t20 [] [] 5 (by decide),
    t21 [] [] 5 16 (by decide),
    t22 [] [] [83] [83] 5 16 (by decide) (by decide)⟩

/-- C4 counterexample: two records whose game-mode tag position holds
different wrong bytes at different offsets (0x2B at offset 6, 0x2C at
offset 7) fail with the *identical* error value, so the error carries
neither the found tag nor the byte offset of the mismatch. -/
theorem C4_counterexample :
    VS.parse_server_query_answer [0x0A, 0, 0x18, 5, 0x20, 16, 0x2B] =
      .error (.valueError "Expected field 5 (GameMode) tag 0x2A")
    ∧ VS.parse_server_query_answer [0x0A, 1, 65, 0x18, 5, 0x20, 16, 0x2C] =
      .error (.valueError "Expected field 5 (GameMode) tag 0x2A") := by
  exact ⟨by decide, by decide⟩

/-- C4 (amended): replacing the required game-mode tag byte with any byte
other than 0x2A makes decoding fail with a `ValueError` whose fixed message
names the expected field and tag — it does not carry the found byte or the
offset. -/
theorem C4_required_tag_mismatch (ns sn : List Nat) (pc mp t : Nat)
    (rest : List Nat)
    (hb : VS.isBytes ns) (hl : ns.length < 256) (hpc : pc < 256) (hmp : mp < 256)
    (ht : t < 256) (hdn : VS.decodeUtf8 ns = some sn) (hne : t ≠ 0x2A) :
    VS.parse_server_query_answer
        (0x0A :: ns.length :: (ns ++ 0x18 :: pc :: 0x20 :: mp :: t :: rest)) =
      .error (.valueError "Expected field 5 (GameMode) tag 0x2A") := by
  have e1 : VS.parseName
      (0x0A :: ns.length :: (ns ++ 0x18 :: pc :: 0x20 :: mp :: t :: rest)) =
      .ok (sn, 2 + ns.length) :=
    VS.parseName_ok _ ns (0x18 :: pc :: 0x20 :: mp :: t :: rest) sn rfl hdn
  have e2 : VS.parseMotd
      (0x0A :: ns.length :: (ns ++ 0x18 :: pc :: 0x20 :: mp :: t :: rest))
      (2 + ns.length) = .ok ([], 2 + ns.length) :=
    VS.parseMotd_absent _ (0x0A :: ns.length :: ns) 0x18
      (pc :: 0x20 :: mp :: t :: rest) _
      (by simp) (by simp only [List.length_cons]; omega) (by decide)
  have e3 : VS.parseReqScalar 0x18 "Expected field 3 (PlayerCount) tag 0x18"
      (0x0A :: ns.length :: (ns ++ 0x18 :: pc :: 0x20 :: mp :: t :: rest))
      (2 + ns.length) = .ok (pc, 2 + ns.length + 2) :=
    VS.parseReqScalar_ok _ _ _ (0x0A :: ns.length :: ns) pc
      (0x20 :: mp :: t :: rest) _
      (by simp) (by simp only [List.length_cons]; omega)
  have e4 : VS.parseReqScalar 0x20 "Expected field 4 (MaxPlayers) tag 0x20"
      (0x0A :: ns.length :: (ns ++ 0x18 :: pc :: 0x20 :: mp :: t :: rest))
      (2 + ns.length + 2) = .ok (mp, 2 + ns.length + 2 + 2) :=
    VS.parseReqScalar_ok _ _ _ (0x0A :: ns.length :: (ns ++ [0x18, pc])) mp
      (t :: rest) _
      (by simp)
      (by simp only [List.length_cons, List.length_append, List.length_nil]; omega)
  have e5 : VS.parseReqString 0x2A "Not enough data to read GameMode content"
      "Expected field 5 (GameMode) tag 0x2A"
      (0x0A :: ns.length :: (ns ++ 0x18 :: pc :: 0x20 :: mp :: t :: rest))
      (2 + ns.length + 2 + 2) =
      .error (.valueError "Expected field 5 (GameMode) tag 0x2A") :=
    VS.parseReqString_miss _ _ _ _
      (0x0A :: ns.length :: (ns ++ [0x18, pc, 0x20, mp])) t rest _
      (by simp)
      (by simp only [List.length_cons, List.length_append, List.length_nil]; omega) hne
  simp only [VS.parse_server_query_answer, e1, e2, e3, e4, e5]

/-- Witness for C4 (amended) at name "A", counts 5/16, found byte 0x2B. -/
theorem C4_required_tag_mismatch_witness :
    VS.parse_server_query_answer [0x0A, 1, 65, 0x18, 5, 0x20, 16, 0x2B] =
      .error (.valueError "Expected field 5 (GameMode) tag 0x2A") :=
  C4_required_tag_mismatch [65] [65] 5 16 0x2B []
    (by decide) (by decide) (by decide) (by decide) (by decide) (by decide) (by decide)

/-- C6: every string field whose declared 1-byte length exceeds the bytes
remaining after the length byte fails with the Truncated ("Not enough data")
failure, never a shortened string — shown for all four string fields. -/
theorem C6_string_truncation :
    (∀ (n : Nat) (rest : List Nat), n < 256 → rest.length < n →
      VS.parse_server_query_answer (0x0A :: n :: rest) =
        .error (.valueError "Not enough data to read Name content"))
    ∧ (∀ (ns sn : List Nat) (n : Nat) (rest : List Nat),
        VS.decodeUtf8 ns = some sn → n < 256 → rest.length < n →
      VS.parse_server_query_answer (0x0A :: ns.length :: (ns ++ 0x12 :: n :: rest)) =
        .error (.valueError "Not enough data to read MOTD content"))
    ∧ (∀ (ns sn : List Nat) (pc mp n : Nat) (rest : List Nat),
        VS.decodeUtf8 ns = some sn → n < 256 → rest.length < n →
      VS.parse_server_query_answer
          (0x0A :: ns.length :: (ns ++ 0x18 :: pc :: 0x20 :: mp :: 0x2A :: n :: rest)) =
        .error (.valueError "Not enough data to read GameMode content"))
    ∧ (∀ (ns sn gs sg : List Nat) (pc mp pw n : Nat) (rest : List Nat),
        VS.decodeUtf8 ns = some sn → VS.decodeUtf8 gs = some sg →
        n < 256 → rest.length < n →
      VS.parse_server_query_answer
          (0x0A :: ns.length :: (ns ++ 0x18 :: pc :: 0x20 :: mp :: 0x2A :: gs.length ::
            (gs ++ 0x30 :: pw :: 0x3A :: n :: rest))) =
        .error (.valueError "Not enough data to read ServerVersion content")) := by
  refine ⟨?_, ?_, ?_, ?_⟩
  · intro n rest _ h
    have e1 := VS.parseName_trunc (0x0A :: n :: rest) n rest rfl h
    simp only [VS.parse_server_query_answer, e1]
  · intro ns sn n rest hdn _ h
    have e1 : VS.parseName (0x0A :: ns.length :: (ns ++ 0x12 :: n :: rest)) =
        .ok (sn, 2 + ns.length) :=
      VS.parseName_ok _ ns (0x12 :: n :: rest) sn rfl hdn
    have e2 : VS.parseMotd (0x0A :: ns.length :: (ns ++ 0x12 :: n :: rest))
        (2 + ns.length) =
        .error (.valueError "Not enough data to read MOTD content") :=
      VS.parseMotd_trunc _ (0x0A :: ns.length :: ns) n rest _
        (by simp) (by simp only [List.length_cons]; omega) h
    simp only [VS.parse_server_query_answer, e1, e2]
  · intro ns sn pc mp n rest hdn _ h
    have e1 : VS.parseName
        (0x0A :: ns.length :: (ns ++ 0x18 :: pc :: 0x20 :: mp :: 0x2A :: n :: rest)) =
        .ok (sn, 2 + ns.length) :=
      VS.parseName_ok _ ns (0x18 :: pc :: 0x20 :: mp :: 0x2A :: n :: rest) sn rfl hdn
    have e2 : VS.parseMotd
        (0x0A :: ns.length :: (ns ++ 0x18 :: pc :: 0x20 :: mp :: 0x2A :: n :: rest))
        (2 + ns.length) = .ok ([], 2 + ns.length) :=
      VS.parseMotd_absent _ (0x0A :: ns.length :: ns) 0x18
        (pc :: 0x20 :: mp :: 0x2A :: n :: rest) _
        (by simp) (by simp only [List.length_cons]; omega) (by decide)
    have e3 : VS.parseReqScalar 0x18 "Expected field 3 (PlayerCount) tag 0x18"
        (0x0A :: ns.length :: (ns ++ 0x18 :: pc :: 0x20 :: mp :: 0x2A :: n :: rest))
        (2 + ns.length) = .ok (pc, 2 + ns.length + 2) :=
      VS.parseReqScalar_ok _ _ _ (0x0A :: ns.length :: ns) pc
        (0x20 :: mp :: 0x2A :: n :: rest) _
        (by simp) (by simp only [List.length_cons]; omega)
    have e4 : VS.parseReqScalar 0x20 "Expected field 4 (MaxPlayers) tag 0x20"
        (0x0A :: ns.length :: (ns ++ 0x18 :: pc :: 0x20 :: mp :: 0x2A :: n :: rest))
        (2 + ns.length + 2) = .ok (mp, 2 + ns.length + 2 + 2) :=
      VS.parseReqScalar_ok _ _ _ (0x0A :: ns.length :: (ns ++ [0x18, pc])) mp
        (0x2A :: n :: rest) _
        (by simp)
        (by simp only [List.length_cons, List.length_append, List.length_nil]; omega)
    have e5 : VS.parseReqString 0x2A "Not enough data to read GameMode content"
        "Expected field 5 (GameMode) tag 0x2A"
        (0x0A :: ns.length :: (ns ++ 0x18 :: pc :: 0x20 :: mp :: 0x2A :: n :: rest))
        (2 + ns.length + 2 + 2) =
        .error (.valueError "Not enough data to read GameMode content") :=
      VS.parseReqString_trunc _ _ _ _
        (0x0A :: ns.length :: (ns ++ [0x18, pc, 0x20, mp])) n rest _
        (by simp)
        (by simp only [List.length_cons, List.length_append, List.length_nil]; omega) h
    simp only [VS.parse_server_query_answer, e1, e2, e3, e4, e5]
  · intro ns sn gs sg pc mp pw n rest hdn hdg _ h
    have e1 : VS.parseName
        (0x0A :: ns.length :: (ns ++ 0x18 :: pc :: 0x20 :: mp :: 0x2A :: gs.length ::
          (gs ++ 0x30 :: pw :: 0x3A :: n :: rest))) = .ok (sn, 2 + ns.length) :=
      VS.parseName_ok _ ns
        (0x18 :: pc :: 0x20 :: mp :: 0x2A :: gs.length ::
          (gs ++ 0x30 :: pw :: 0x3A :: n :: rest)) sn rfl hdn
    have e2 : VS.parseMotd
        (0x0A :: ns.length :: (ns ++ 0x18 :: pc :: 0x20 :: mp :: 0x2A :: gs.length ::
          (gs ++ 0x30 :: pw :: 0x3A :: n :: rest)))
        (2 + ns.length) = .ok ([], 2 + ns.length) :=
      VS.parseMotd_absent _ (0x0A :: ns.length :: ns) 0x18
        (pc :: 0x20 :: mp :: 0x2A :: gs.length ::
          (gs ++ 0x30 :: pw :: 0x3A :: n :: rest)) _
        (by simp) (by simp only [List.length_cons]; omega) (by decide)
    have e3 : VS.parseReqScalar 0x18 "Expected field 3 (PlayerCount) tag 0x18"
        (0x0A :: ns.length :: (ns ++ 0x18 :: pc :: 0x20 :: mp :: 0x2A :: gs.length ::
          (gs ++ 0x30 :: pw :: 0x3A :: n :: rest)))
        (2 + ns.length) = .ok (pc, 2 + ns.length + 2) :=
      VS.parseReqScalar_ok _ _ _ (0x0A :: ns.length :: ns) pc
        (0x20 :: mp :: 0x2A :: gs.length :: (gs ++ 0x30 :: pw :: 0x3A :: n :: rest)) _
        (by simp) (by simp only [List.length_cons]; omega)
    have e4 : VS.parseReqScalar 0x20 "Expected field 4 (MaxPlayers) tag 0x20"
        (0x0A :: ns.length :: (ns ++ 0x18 :: pc :: 0x20 :: mp :: 0x2A :: gs.length ::
          (gs ++ 0x30 :: pw :: 0x3A :: n :: rest)))
        (2 + ns.length + 2) = .ok (mp, 2 + ns.length + 2 + 2) :=
      VS.parseReqScalar_ok _ _ _ (0x0A :: ns.length :: (ns ++ [0x18, pc])) mp
        (0x2A :: gs.length :: (gs ++ 0x30 :: pw :: 0x3A :: n :: rest)) _
        (by simp)
        (by simp only [List.length_cons, List.length_append, List.length_nil]; omega)
    have e5 : VS.parseReqString 0x2A "Not enough data to read GameMode content"
        "Expected field 5 (GameMode) tag 0x2A"
        (0x0A :: ns.length :: (ns ++ 0x18 :: pc :: 0x20 :: mp :: 0x2A :: gs.length ::
          (gs ++ 0x30 :: pw :: 0x3A :: n :: rest)))
        (2 + ns.length + 2 + 2) =
        .ok (sg, 2 + ns.length + 2 + 2 + 2 + gs.length) :=
      VS.parseReqString_ok _ _ _ _
        (0x0A :: ns.length :: (ns ++ [0x18, pc, 0x20, mp])) gs
        (0x30 :: pw :: 0x3A :: n :: rest) sg _
        (by simp)
        (by simp only [List.length_cons, List.length_append, List.length_nil]; omega) hdg
    have e6 : VS.parsePassword
        (0x0A :: ns.length :: (ns ++ 0x18 :: pc :: 0x20 :: mp :: 0x2A :: gs.length ::
          (gs ++ 0x30 :: pw :: 0x3A :: n :: rest)))
        (2 + ns.length + 2 + 2 + 2 + gs.length) =
        .ok (pw != 0, 2 + ns.length + 2 + 2 + 2 + gs.length + 2) :=
      VS.parsePassword_present _
        (0x0A :: ns.length :: (ns ++ 0x18 :: pc :: 0x20 :: mp :: 0x2A :: gs.length :: gs))
        pw (0x3A :: n :: rest) _
        (by simp) (by simp only [List.length_cons, List.length_append]; omega)
    have e7 : VS.parseReqString 0x3A "Not enough data to read ServerVersion content"
        "Expected field 7 (ServerVersion) tag 0x3A"
        (0x0A :: ns.length :: (ns ++ 0x18 :: pc :: 0x20 :: mp :: 0x2A :: gs.length ::
          (gs ++ 0x30 :: pw :: 0x3A :: n :: rest)))
        (2 + ns.length + 2 + 2 + 2 + gs.length + 2) =
        .error (.valueError "Not enough data to read ServerVersion content") :=
      VS.parseReqString_trunc _ _ _ _
        (0x0A :: ns.length :: (ns ++ 0x18 :: pc :: 0x20 :: mp :: 0x2A :: gs.length ::
          (gs ++ [0x30, pw]))) n rest _
        (by simp)
        (by simp only [List.length_cons, List.length_append, List.length_nil]; omega) h
    simp only [VS.parse_server_query_answer, e1, e2, e3, e4, e5, e6, e7]

/-- Witness for C6: one concrete truncated input per string field. -/
theorem C6_string_truncation_witness :
    VS.parse_server_query_answer [0x0A, 5, 65] =
      .error (.valueError "Not enough data to read Name content")
    ∧ VS.parse_server_query_answer [0x0A, 0, 0x12, 9, 66] =
      .error (.valueError "Not enough data to read MOTD content")
    ∧ VS.parse_server_query_answer [0x0A, 0, 0x18, 1, 0x20, 2, 0x2A, 7] =
      .error (.valueError "Not enough data to read GameMode content")
    ∧ VS.parse_server_query_answer [0x0A, 0, 0x18, 1, 0x20, 2, 0x2A, 0, 0x30, 1, 0x3A, 4, 49] =
      .error (.valueError "Not enough data to read ServerVersion content") :=
  ⟨C6_string_truncation.1 5 [65] (by decide) (by decide),
   C6_string_truncation.2.1 [] [] 9 [66] (by decide) (by decide) (by decide),
   C6_string_truncation.2.2.1 [] [] 1 2 7 [] (by decide) (by decide) (by decide),
   C6_string_truncation.2.2.2 [] [] [] [] 1 2 1 4 [49]
     (by decide) (by decide) (by decide) (by decide)⟩

/-- C5: if the reserved Name-tag byte 0x0A occurs nowhere in the response
payload, the decode stage fails with the "Could not find start of
QueryAnswer" `ValueError` (no field decoding is attempted); if it does
occur, everything before its first occurrence is discarded and the field
record is parsed starting at that byte. -/
theorem C5_preamble_skip (payload : List Nat) :
    (0x0A ∉ payload →
      VS.query_decode payload =
        .error (.valueError "Could not find start of QueryAnswer (0x0a tag)"))
    ∧ (∀ i, VS.bytes_find 0x0A payload = some i →
        VS.query_decode payload = VS.parse_server_query_answer (payload.drop i)
        ∧ payload[i]? = some 0x0A
        ∧ ∀ j, j < i → payload[j]? ≠ some 0x0A) := by
  constructor
  · intro h
    have hf : VS.bytes_find 0x0A payload = none := (VS.bytes_find_eq_none _ _).mpr h
    simp [VS.query_decode, hf]
  · intro i hi
    exact ⟨by simp [VS.query_decode, hi],
      (VS.bytes_find_spec _ _ _ hi).1, (VS.bytes_find_spec _ _ _ hi).2⟩

/-- Witness for C5: a payload with no 0x0A byte fails with the preamble
error; in a payload whose first 0x0A is at index 1, the byte before it is
discarded and parsing starts at index 1. -/
theorem C5_preamble_skip_witness :
    VS.query_decode [1, 2, 3] =
      .error (.valueError "Could not find start of QueryAnswer (0x0a tag)")
    ∧ VS.query_decode [7, 0x0A, 9] =
        VS.parse_server_query_answer ([7, 0x0A, 9].drop 1) :=
  ⟨(C5_preamble_skip [1, 2, 3]).1 (by decide),
   ((C5_preamble_skip [7, 0x0A, 9]).2 1 (by decide)).1⟩

/-- C9: the sub-payload handed to `parse_server_query_answer` by the decode
stage starts with the 0x0A byte whenever the payload contains one, so the
decode pipeline can never produce the field-1 "Expected field 1 (Name) tag
0x0A at offset 0" failure (for payloads without 0x0A it fails earlier with
the preamble error). -/
theorem C9_field1_branch_unreachable (payload : List Nat) :
    VS.query_decode payload ≠
      .error (.valueError "Expected field 1 (Name) tag 0x0A at offset 0")
    ∧ ∀ i, VS.bytes_find 0x0A payload = some i →
        (payload.drop i)[0]? = some 0x0A := by
  have hstart : ∀ i, VS.bytes_find 0x0A payload = some i →
      (payload.drop i)[0]? = some 0x0A := by
    intro i hi
    rw [List.getElem?_drop]
    simpa using (VS.bytes_find_spec _ _ _ hi).1
  refine ⟨?_, hstart⟩
  intro hcontra
  unfold VS.query_decode at hcontra
  cases hf : VS.bytes_find 0x0A payload with
  | none => rw [hf] at hcontra; simp at hcontra
  | some i =>
    rw [hf] at hcontra
    exact VS.parse_no_field1_error_of_head_0A (payload.drop i) (hstart i hf) hcontra

/-- Witness for C9: in `[1, 0x0A, 2]` the first 0x0A is at index 1 and the
sub-payload from there starts with 0x0A. -/
theorem C9_field1_branch_unreachable_witness :
    (([1, 0x0A, 2] : List Nat).drop 1)[0]? = some 0x0A :=
  (C9_field1_branch_unreachable [1, 0x0A, 2]).2 1 (by decide)

/-- C10: whenever `parse_server_query_answer` succeeds, appending any extra
bytes after the parsed record yields the same `ServerQueryAnswer` — trailing
bytes are ignored and never cause a failure. -/
theorem C10_trailing_bytes_ignored (data extra : List Nat)
    (ans : VS.ServerQueryAnswer)
    (h : VS.parse_server_query_answer data = .ok ans) :
    VS.parse_server_query_answer (data ++ extra) = .ok ans := by
  unfold VS.parse_server_query_answer at h
  split at h
  · simp at h
  · rename_i nm o1 heq1
    split at h
    · simp at h
    · rename_i mo o2 heq2
      split at h
      · simp at h
      · rename_i pc o3 heq3
        split at h
        · simp at h
        · rename_i mpv o4 heq4
          split at h
          · simp at h
          · rename_i gm o5 heq5
            split at h
            · simp at h
            · rename_i pwv o6 heq6
              split at h
              · simp at h
              · rename_i sv o7 heq7
                have E1 := VS.parseName_append data extra nm o1 heq1
                have E2 := VS.parseMotd_append data extra o1 mo o2 heq2
                  (VS.parseReqScalar_ok_bound _ _ data o2 pc o3 heq3)
                have E3 := VS.parseReqScalar_append _ _ data extra o2 pc o3 heq3
                have E4 := VS.parseReqScalar_append _ _ data extra o3 mpv o4 heq4
                have E5 := VS.parseReqString_append _ _ _ data extra o4 gm o5 heq5
                have E6 := VS.parsePassword_append data extra o5 pwv o6 heq6
                  (VS.parseReqString_ok_bound _ _ _ data o6 sv o7 heq7)
                have E7 := VS.parseReqString_append _ _ _ data extra o6 sv o7 heq7
                rw [← h]
                simp only [VS.parse_server_query_answer, E1, E2, E3, E4, E5, E6, E7]

/-- Witness for C10: the no-optionals record for name "H" parses identically
with two junk bytes appended. -/
theorem C10_trailing_bytes_ignored_witness :
    VS.parse_server_query_answer
        (VS.mkRecordNoOpt [72] 4 16 [83] [49] ++ [0xFF, 0x00]) =
      .ok { name := [72], motd := [], player_count := 4, max_players := 16,
            game_mode := [83], password := false, server_version := [49] } :=
  C10_trailing_bytes_ignored (VS.mkRecordNoOpt [72] 4 16 [83] [49]) [0xFF, 0x00] _
    (by decide)

